import Mathlib

/-!
# Search controls of the session viewer (`search.component.js`)

A shallow embedding of `SearchController`: the time-range resolver, the
synchronisation of the address-bar query parameters, the two outgoing
notifications and the action-form selector.

JavaScript values are embedded as the type `JSVal`.  A JavaScript Number is
`NaN`, one of the two infinities, or an exact rational: arithmetic is exact, and
a finite number is written in positional decimal notation when it is turned
into a string.  This is what JavaScript computes on the integers that
timestamps are, as long as they stay below `2 ^ 53` in magnitude.

The clock is a parameter: an operation that may call `new Date().getTime()`
takes the reading `now` it would get.  The notifications sent through `$emit`
and `$broadcast` are appended to a log.
-/

namespace Search

/-! ## JavaScript values -/

/-- A JavaScript Number: `NaN`, `+Infinity`, `-Infinity` or a finite value. -/
inductive JSNum where
  | nan : JSNum
  | pinf : JSNum
  | ninf : JSNum
  | fin (q : ℚ) : JSNum
  deriving DecidableEq

/-- A JavaScript primitive value. -/
inductive JSVal where
  | undefined : JSVal
  | null : JSVal
  | bool (b : Bool) : JSVal
  | num (x : JSNum) : JSVal
  | str (s : String) : JSVal
  deriving DecidableEq

namespace JSNum

/-- Product of two Numbers (`x * y`). -/
def mul : JSNum → JSNum → JSNum
  | nan, _ => nan
  | _, nan => nan
  | fin a, fin b => fin (a * b)
  | pinf, pinf => pinf
  | pinf, ninf => ninf
  | ninf, pinf => ninf
  | ninf, ninf => pinf
  | pinf, fin b => if 0 < b then pinf else if b < 0 then ninf else nan
  | ninf, fin b => if 0 < b then ninf else if b < 0 then pinf else nan
  | fin a, pinf => if 0 < a then pinf else if a < 0 then ninf else nan
  | fin a, ninf => if 0 < a then ninf else if a < 0 then pinf else nan

/-- Difference of two Numbers (`x - y`). -/
def sub : JSNum → JSNum → JSNum
  | nan, _ => nan
  | _, nan => nan
  | fin a, fin b => fin (a - b)
  | pinf, pinf => nan
  | ninf, ninf => nan
  | pinf, _ => pinf
  | ninf, _ => ninf
  | fin _, pinf => ninf
  | fin _, ninf => pinf

/-- Quotient of two Numbers (`x / y`). -/
def div : JSNum → JSNum → JSNum
  | nan, _ => nan
  | _, nan => nan
  | fin a, fin b =>
    if b = 0 then (if 0 < a then pinf else if a < 0 then ninf else nan) else fin (a / b)
  | fin _, pinf => fin 0
  | fin _, ninf => fin 0
  | pinf, fin b => if b < 0 then ninf else pinf
  | ninf, fin b => if b < 0 then pinf else ninf
  | pinf, pinf => nan
  | pinf, ninf => nan
  | ninf, pinf => nan
  | ninf, ninf => nan

/-- Whether `x > 0` holds. -/
def gtZero : JSNum → Bool
  | fin q => decide (0 < q)
  | pinf => true
  | _ => false

/-- Whether a Number is `NaN`. -/
def isNaN : JSNum → Bool
  | nan => true
  | _ => false

/-- ToBoolean of a Number: false for `NaN` and zero only. -/
def truthy : JSNum → Bool
  | nan => false
  | fin q => decide (q ≠ 0)
  | _ => true

end JSNum

/-! ## Reading numbers from strings -/

/-- White space and line terminators, which StringToNumber and parseInt strip. -/
def isWhiteSpace (c : Char) : Bool :=
  let n := c.toNat
  n = 9 || n = 10 || n = 11 || n = 12 || n = 13 || n = 32 || n = 0xA0 || n = 0x1680 ||
  (0x2000 ≤ n && n ≤ 0x200A) || n = 0x2028 || n = 0x2029 || n = 0x202F || n = 0x205F ||
  n = 0x3000 || n = 0xFEFF

/-- Strip leading white space. -/
def trimStart (cs : List Char) : List Char := cs.dropWhile isWhiteSpace

/-- Strip leading and trailing white space. -/
def trim (cs : List Char) : List Char := (trimStart (trimStart cs).reverse).reverse

/-- Value of a character read as a digit, for radices up to 36. -/
def digitValue (c : Char) : Option Nat :=
  let n := c.toNat
  if 48 ≤ n ∧ n ≤ 57 then some (n - 48)
  else if 97 ≤ n ∧ n ≤ 122 then some (n - 87)
  else if 65 ≤ n ∧ n ≤ 90 then some (n - 55)
  else none

/-- Value of a character as a digit of the given radix, if it is one. -/
def digitIn (radix : Nat) (c : Char) : Option Nat :=
  match digitValue c with
  | some d => if d < radix then some d else none
  | none => none

/-- Read the longest leading run of digits of the radix, starting from the value `acc` and the
count `cnt` of digits already read: the value, the number of digits and the unread rest. -/
def readDigits (radix : Nat) : List Char → Nat → Nat → Nat × Nat × List Char
  | [], acc, cnt => (acc, cnt, [])
  | c :: cs, acc, cnt =>
    match digitIn radix c with
    | some d => readDigits radix cs (acc * radix + d) (cnt + 1)
    | none => (acc, cnt, c :: cs)

/-- What a string denotes as a numeric literal. -/
inductive Parsed where
  | notNumeric : Parsed
  | infinite (neg : Bool) : Parsed
  | finite (neg : Bool) (mant : Nat) (exp : Int) : Parsed
  deriving DecidableEq

/-- The Number a parsed literal stands for: `mant * 10 ^ exp` with its sign. -/
def Parsed.toNum : Parsed → JSNum
  | .notNumeric => .nan
  | .infinite false => .pinf
  | .infinite true => .ninf
  | .finite neg mant exp => .fin ((if neg then -1 else 1) * (mant : ℚ) * (10 : ℚ) ^ exp)

/-- An optional exponent part `e±ddd` that must reach the end of the string. -/
def readExponent : List Char → Option Int
  | [] => some 0
  | c :: cs =>
    if c = 'e' ∨ c = 'E' then
      let signed : Bool × List Char :=
        match cs with
        | '+' :: r => (false, r)
        | '-' :: r => (true, r)
        | r => (false, r)
      match readDigits 10 signed.2 0 0 with
      | (v, n, rest) =>
        if n = 0 ∨ rest ≠ [] then none
        else some (if signed.1 then -(v : Int) else (v : Int))
    else none

/-- An unsigned StrDecimalLiteral other than `Infinity`: digits, an optional fraction and an
optional exponent, with at least one digit before the exponent. -/
def readUnsignedDecimal (neg : Bool) (cs : List Char) : Parsed :=
  match readDigits 10 cs 0 0 with
  | (i, ni, r1) =>
    match r1 with
    | '.' :: r =>
      (match readDigits 10 r 0 0 with
       | (f, nf, r2) =>
         if ni = 0 ∧ nf = 0 then .notNumeric
         else match readExponent r2 with
           | some e => .finite neg (i * 10 ^ nf + f) (e - nf)
           | none => .notNumeric)
    | _ =>
      if ni = 0 then .notNumeric
      else match readExponent r1 with
        | some e => .finite neg i e
        | none => .notNumeric

/-- A StrDecimalLiteral: an optional sign, then `Infinity` or an unsigned decimal literal. -/
def readSignedDecimal (cs : List Char) : Parsed :=
  let signed : Bool × List Char :=
    match cs with
    | '+' :: r => (false, r)
    | '-' :: r => (true, r)
    | r => (false, r)
  if signed.2 = "Infinity".data then .infinite signed.1
  else readUnsignedDecimal signed.1 signed.2

/-- A hexadecimal, octal or binary integer literal after its two-character mark. -/
def readNonDecimal (radix : Nat) (cs : List Char) : Parsed :=
  match readDigits radix cs 0 0 with
  | (v, n, rest) => if n = 0 ∨ rest ≠ [] then .notNumeric else .finite false v 0

/-- StringToNumber on the characters of a string: white space is trimmed, the empty string is
zero, and anything that is not a numeric literal as a whole is `NaN`. -/
def stringToParsed (cs : List Char) : Parsed :=
  match trim cs with
  | [] => .finite false 0 0
  | '0' :: x :: rest =>
    if x = 'x' ∨ x = 'X' then readNonDecimal 16 rest
    else if x = 'o' ∨ x = 'O' then readNonDecimal 8 rest
    else if x = 'b' ∨ x = 'B' then readNonDecimal 2 rest
    else readSignedDecimal ('0' :: x :: rest)
  | t => readSignedDecimal t

/-- The integer `parseInt` reads at the head of a string: leading white space and a sign are
skipped, a `0x` mark selects radix 16 when `strip` is set (no radix argument), and the longest
run of digits is read; `none` when there is no digit. -/
def parseIntChars (strip : Bool) (cs : List Char) : Option Int :=
  let signed : Bool × List Char :=
    match trimStart cs with
    | '+' :: r => (false, r)
    | '-' :: r => (true, r)
    | r => (false, r)
  let based : Nat × List Char :=
    match signed.2 with
    | '0' :: x :: r => if strip ∧ (x = 'x' ∨ x = 'X') then (16, r) else (10, signed.2)
    | r => (10, r)
  match readDigits based.1 based.2 0 0 with
  | (v, n, _) => if n = 0 then none else some (if signed.1 then -(v : Int) else (v : Int))

namespace JSVal

/-- ToBoolean. -/
def truthy : JSVal → Bool
  | undefined => false
  | null => false
  | bool b => b
  | num x => x.truthy
  | str s => decide (s ≠ "")

/-- ToNumber. -/
def toNumber : JSVal → JSNum
  | undefined => .nan
  | null => .fin 0
  | bool true => .fin 1
  | bool false => .fin 0
  | num x => x
  | str s => (stringToParsed s.data).toNum

/-- The global `isNaN(v)`: whether ToNumber of the value is `NaN`. -/
def isNaN (v : JSVal) : Bool := v.toNumber.isNaN

end JSVal

/-- Integer part of a rational, rounded towards zero. -/
def truncate (q : ℚ) : Int := if 0 ≤ q then ⌊q⌋ else ⌈q⌉

/-- The call `parseInt(v, 10)` (`strip` false) or `parseInt(v)` (`strip` true): the argument
is turned into a string, of which the leading integer is read.  A finite number, written in
positional notation, gives its integer part. -/
def parseInt (strip : Bool) : JSVal → JSNum
  | .num (.fin q) => .fin (truncate q)
  | .str s =>
    match parseIntChars strip s.data with
    | some i => .fin i
    | none => .nan
  | _ => .nan

/-! ## Writing numbers as strings -/

/-- Nearest integer to a non-negative rational, a tie going up. -/
def roundHalfUp (q : ℚ) : Nat := ⌊q + 1 / 2⌋.toNat

/-- The decimal digits of a natural number. -/
def decimal (n : Nat) : String := String.mk (Nat.toDigits 10 n)

/-- The call `x.toFixed()`: the number with no digit after the decimal point. -/
def toFixed : JSNum → String
  | .nan => "NaN"
  | .pinf => "Infinity"
  | .ninf => "-Infinity"
  | .fin q => if q < 0 then "-" ++ decimal (roundHalfUp (-q)) else decimal (roundHalfUp q)

/-! ## State of the controller and of its collaborators -/

/-- Query parameters by key; an absent key reads as `undefined`. -/
abbrev Params := String → JSVal

/-- The call `$location.search(key, value)`: a value of `null` or `undefined` deletes the key,
any other value is stored under it. -/
def Params.search (key : String) (value : JSVal) (p : Params) : Params :=
  fun k =>
    if k = key then
      (match value with
       | .undefined => .undefined
       | .null => .undefined
       | v => v)
    else p k

/-- Whether a key is present among the parameters. -/
def Params.has (p : Params) (key : String) : Prop := p key ≠ .undefined

instance (p : Params) (key : String) : Decidable (p.has key) := by
  unfold Params.has
  infer_instance

/-- A remote-cluster descriptor, which the controller stores without looking inside. -/
structure Cluster where
  id : Nat
  deriving DecidableEq

/-- Payload of the `change:search` notification; an absent field is `none`. -/
structure SearchArgs where
  expression : JSVal
  strictly : Bool
  date : Option JSVal
  startTime : Option JSVal
  stopTime : Option JSVal
  deriving DecidableEq

/-- The two outgoing notifications. -/
inductive Event where
  | changeSearch (args : SearchArgs) : Event
  | issueSearch (expression : JSVal) : Event
  deriving DecidableEq

/-- Milliseconds in an hour (`hourMS`). -/
def hourMS : ℚ := 3600000

/-- The module-level variable `currentTime`, the fields of the controller, the query
parameters behind `$location`, the injected `$routeParams`, and the notifications sent so
far (oldest first).  The field `expression` is `this.expression.value`. -/
structure State where
  currentTime : Int
  routeParams : Params
  url : Params
  emitted : List Event
  molochclusters : Option (List Cluster)
  actionFormItemRadio : JSVal
  timeRange : JSVal
  startTime : JSVal
  stopTime : JSVal
  deltaTime : JSVal
  expression : JSVal
  strictly : Bool
  startTimePopup : Option Bool
  stopTimePopup : Option Bool
  dateTimeFormat : JSVal
  altInputFormats : List String
  actionForm : JSVal
  cluster : Option Cluster
  message : JSVal
  messageType : JSVal

/-- The state once the module is loaded (at clock reading `loadTime`) and the controller is
constructed for a route with the given parameters: no field of the controller is set yet. -/
def State.fresh (loadTime : Int) (routeParams : Params) : State where
  currentTime := loadTime
  routeParams := routeParams
  url := routeParams
  emitted := []
  molochclusters := none
  actionFormItemRadio := .undefined
  timeRange := .undefined
  startTime := .undefined
  stopTime := .undefined
  deltaTime := .undefined
  expression := .undefined
  strictly := false
  startTimePopup := none
  stopTimePopup := none
  dateTimeFormat := .undefined
  altInputFormats := []
  actionForm := .undefined
  cluster := none
  message := .undefined
  messageType := .undefined

/-- The statement `this.$location.search(key, value)`. -/
def State.search (key : String) (value : JSVal) (s : State) : State :=
  { s with url := s.url.search key value }

/-- The expression `(ms / 1000).toFixed()`. -/
def secondsString (ms : JSVal) : JSVal :=
  .str (toFixed (JSNum.div ms.toNumber (.fin 1000)))

/-! ## The controller -/

/-- The method `change()`, at clock reading `now`. -/
def change (now : Int) (s : State) : State :=
  -- update the parameters with the expression
  let s : State :=
    if s.expression.truthy ∧ s.expression ≠ .str "" then s.search "expression" s.expression
    else s.search "expression" .null
  -- a relative range resamples the clock
  let s : State :=
    if s.timeRange.toNumber.gtZero then
      let s : State := { s with currentTime := now }
      let s : State := { s with stopTime := .num (.fin s.currentTime) }
      let range := JSNum.mul (.fin hourMS) s.timeRange.toNumber
      { s with startTime := .num (JSNum.sub (.fin s.currentTime) range) }
    else s
  -- all time
  let allTime : Bool := decide (parseInt true s.timeRange = .fin (-1))
  let s : State :=
    if allTime then
      let s : State := { s with startTime := .num (.fin (hourMS * 5)) }
      { s with stopTime := .num (.fin s.currentTime) }
    else s
  let useDateRange := allTime
  -- update the displayed time range
  let s : State := { s with deltaTime := .num (JSNum.sub s.stopTime.toNumber s.startTime.toNumber) }
  if s.startTime.truthy ∧ s.stopTime.truthy then
    let args : SearchArgs :=
      if useDateRange then
        { expression := s.expression, strictly := s.strictly,
          date := some (.num (.fin (-1))), startTime := none, stopTime := none }
      else
        { expression := s.expression, strictly := s.strictly,
          date := none, startTime := some (secondsString s.startTime),
          stopTime := some (secondsString s.stopTime) }
    { s with emitted := s.emitted ++ [.changeSearch args, .issueSearch s.expression] }
  else s

/-- The method `changeTimeRange()`. -/
def changeTimeRange (now : Int) (s : State) : State :=
  let s : State := s.search "date" s.timeRange
  let s : State := s.search "stopTime" .null
  let s : State := s.search "startTime" .null
  change now s

/-- The method `changeDate()`. -/
def changeDate (now : Int) (s : State) : State :=
  let s : State := { s with timeRange := .str "0" }
  let stopSec := secondsString s.stopTime
  let startSec := secondsString s.startTime
  -- only continue if start and stop are valid numbers
  if !startSec.truthy || !stopSec.truthy || startSec.isNaN || stopSec.isNaN then s
  else
    let s : State := s.search "date" .null
    let s : State := s.search "stopTime" (secondsString s.stopTime)
    let s : State := s.search "startTime" (secondsString s.startTime)
    change now s

/-- The method `changeBounded()`. -/
def changeBounded (now : Int) (s : State) : State :=
  let s : State := { s with strictly := !s.strictly }
  let s : State := if s.strictly then s.search "strictly" (.str "true") else s.search "strictly" .null
  change now s

/-- The listener of `update:time`, for a payload with the given `start` and `stop`. -/
def updateTime (now : Int) (start stop : JSVal) (s : State) : State :=
  let s : State :=
    if start.truthy then
      { s with startTime := .num (parseInt false (.num (JSNum.mul start.toNumber (.fin 1000)))) }
    else s
  let s : State :=
    if stop.truthy then
      { s with stopTime := .num (parseInt false (.num (JSNum.mul stop.toNumber (.fin 1000)))) }
    else s
  changeDate now s

/-- The listener of `close:form:container`; `args` is `none` when the event carries no
payload, and otherwise the `message` of the payload. -/
def closeFormContainer (args : Option JSVal) (s : State) : State :=
  let s : State := { s with actionForm := .bool false }
  match args with
  | some message =>
    if message.truthy then { s with message := message, messageType := .str "success" } else s
  | none => s

/-- The callback of `getMolochClusters()`, run when the list of clusters arrives. -/
def clustersLoaded (clusters : List Cluster) (s : State) : State :=
  { s with molochclusters := some clusters }

/-- The method `$onInit()`, at clock reading `now`. -/
def onInit (now : Int) (s : State) : State :=
  let s : State := { s with actionFormItemRadio := .str "visible" }
  let s : State :=
    if (s.routeParams "date").truthy then -- time range is available
      let s : State := { s with timeRange := s.routeParams "date" }
      let s : State :=
        if s.timeRange = .str "-1" then -- all time
          let s : State := { s with startTime := .num (.fin (hourMS * 5)) }
          { s with stopTime := .num (.fin s.currentTime) }
        else s
      let s : State := s.search "stopTime" .null
      s.search "startTime" .null
    else if (s.routeParams "startTime").truthy ∧ (s.routeParams "stopTime").truthy then
      -- start and stop times available
      let stop := parseInt false (.num (JSNum.mul (s.routeParams "stopTime").toNumber (.fin 1000)))
      let start :=
        parseInt false (.num (JSNum.mul (s.routeParams "startTime").toNumber (.fin 1000)))
      if stop.truthy ∧ start.truthy ∧ !stop.isNaN ∧ !start.isNaN then
        let s : State := { s with timeRange := .str "0" }
        let s : State := { s with stopTime := .num stop }
        { s with startTime := .num start }
      else
        let s : State := { s with timeRange := .str "1" }
        let s : State := s.search "date" s.timeRange
        let s : State := s.search "stopTime" .null
        s.search "startTime" .null
    else if !(s.routeParams "date").truthy ∧ !(s.routeParams "startTime").truthy ∧
        !(s.routeParams "stopTime").truthy then
      -- there are no time query parameters, so set defaults
      let s : State := { s with timeRange := .str "1" }
      s.search "date" s.timeRange
    else s
  let s : State :=
    if (s.routeParams "expression").truthy then
      { s with expression := s.routeParams "expression" }
    else { s with expression := .null }
  let s : State := { s with strictly := false }
  let s : State := if (s.routeParams "strictly").truthy then { s with strictly := true } else s
  let s : State := { s with startTimePopup := some false, stopTimePopup := some false }
  let s : State := { s with dateTimeFormat := .str "yyyy/MM/dd HH:mm:ss" }
  let s : State := { s with altInputFormats := ["yyyy/M!/d! H:mm:ss"] }
  change now s

/-! ## Action menu -/

/-- The method `addTags()`. -/
def addTags (s : State) : State := { s with actionForm := .str "add:tags" }

/-- The method `removeTags()`. -/
def removeTags (s : State) : State := { s with actionForm := .str "remove:tags" }

/-- The method `exportPCAP()`. -/
def exportPCAP (s : State) : State := { s with actionForm := .str "export:pcap" }

/-- The method `exportCSV()`. -/
def exportCSV (s : State) : State := { s with actionForm := .str "export:csv" }

/-- The method `scrubPCAP()`. -/
def scrubPCAP (s : State) : State := { s with actionForm := .str "scrub:pcap" }

/-- The method `deleteSession()`. -/
def deleteSession (s : State) : State := { s with actionForm := .str "delete:session" }

/-- The method `sendSession(cluster)`. -/
def sendSession (cluster : Cluster) (s : State) : State :=
  { s with actionForm := .str "send:session", cluster := some cluster }

/-! ## Interactions -/

/-- Modelled from the spec: the template `search.html`, which binds the mode selector, the two
date pickers and the filter box to fields of the controller, is not among the sources; on a
radio selection, a date-picker edit or an edit of the filter the view writes the bound field,
before the method that handles the change is called. -/
inductive ViewWrite : State → State → Prop where
  | timeRange (v : JSVal) (s : State) : ViewWrite s { s with timeRange := v }
  | startTime (v : JSVal) (s : State) : ViewWrite s { s with startTime := v }
  | stopTime (v : JSVal) (s : State) : ViewWrite s { s with stopTime := v }
  | expression (v : JSVal) (s : State) : ViewWrite s { s with expression := v }

/-- One interaction with the initialised controller: a call of one of its methods, the
delivery of one of the two notifications it listens to, the arrival of the list of clusters,
or a write of the view to a bound field. -/
inductive Step : State → State → Prop where
  | change (now : Int) (s : State) : Step s (Search.change now s)
  | changeTimeRange (now : Int) (s : State) : Step s (Search.changeTimeRange now s)
  | changeDate (now : Int) (s : State) : Step s (Search.changeDate now s)
  | changeBounded (now : Int) (s : State) : Step s (Search.changeBounded now s)
  | updateTime (now : Int) (start stop : JSVal) (s : State) :
      Step s (Search.updateTime now start stop s)
  | closeFormContainer (args : Option JSVal) (s : State) :
      Step s (Search.closeFormContainer args s)
  | clustersLoaded (clusters : List Cluster) (s : State) :
      Step s (Search.clustersLoaded clusters s)
  | addTags (s : State) : Step s (Search.addTags s)
  | removeTags (s : State) : Step s (Search.removeTags s)
  | exportPCAP (s : State) : Step s (Search.exportPCAP s)
  | exportCSV (s : State) : Step s (Search.exportCSV s)
  | scrubPCAP (s : State) : Step s (Search.scrubPCAP s)
  | deleteSession (s : State) : Step s (Search.deleteSession s)
  | sendSession (cluster : Cluster) (s : State) : Step s (Search.sendSession cluster s)
  | view {s t : State} (w : ViewWrite s t) : Step s t

/-- The states of a controller from `$onInit()` on, for a module loaded at `loadTime` and a
route with the given parameters, the URL parameters starting equal to the route parameters. -/
inductive Reachable (loadTime : Int) (routeParams : Params) : State → Prop where
  | init (now : Int) :
      Reachable loadTime routeParams (onInit now (State.fresh loadTime routeParams))
  | step {s t : State} (h : Reachable loadTime routeParams s) (st : Step s t) :
      Reachable loadTime routeParams t

/-! ## Sample route parameters -/

/-- A route with no parameter. -/
def noParams : Params := fun _ => .undefined

/-- The route parameters of `?date=-1`. -/
def dateAllTime : Params := fun k => if k = "date" then .str "-1" else .undefined

/-- The route parameters of `?startTime=1000`. -/
def onlyStartTime : Params := fun k => if k = "startTime" then .str "1000" else .undefined

/-- The route parameters of `?strictly=` (the key with an empty value). -/
def strictlyEmpty : Params := fun k => if k = "strictly" then .str "" else .undefined

/-- The route parameters of `?strictly=false`. -/
def strictlyFalse : Params := fun k => if k = "strictly" then .str "false" else .undefined

/-- The route parameters of `?strictly=true`. -/
def strictlyTrue : Params := fun k => if k = "strictly" then .str "true" else .undefined

/-- The route parameters of `?date=0`. -/
def dateCustom : Params := fun k => if k = "date" then .str "0" else .undefined

/-! ## Sample states -/

/-- The controller after `$onInit()` at clock reading 1700000000000 for a route with no
parameter, the module having been loaded at 1699999999000: it is in the one-hour mode. -/
def ready : State := onInit 1700000000000 (State.fresh 1699999999000 noParams)

/-- The controller after `$onInit()` for the route `?date=0`. -/
def noWindow : State := onInit 1700000000000 (State.fresh 1699999999000 dateCustom)

/-- The controller after `$onInit()` for the route `?strictly=`. -/
def emptyFlag : State := onInit 1700000000000 (State.fresh 1699999999000 strictlyEmpty)

/-- The controller after `$onInit()` for the route `?strictly=false`. -/
def falseFlag : State := onInit 1700000000000 (State.fresh 1699999999000 strictlyFalse)

/-- The ready controller once the all-time mode is selected. -/
def everything : State := { ready with timeRange := .str "-1" }

/-- The ready controller once the three-hour mode is selected. -/
def threeHours : State := { ready with timeRange := .str "3" }

/-- The ready controller once a date picker has cleared `startTime`. -/
def unsetWindow : State := { ready with startTime := .undefined }

/-- The ready controller once the date pickers hold the window from 1000000 to 2000000. -/
def windowSet : State :=
  { ready with startTime := .num (.fin 1000000), stopTime := .num (.fin 2000000) }

/-- The ready controller once the date pickers hold a window that ends before it starts. -/
def windowReversed : State :=
  { ready with startTime := .num (.fin 2000000), stopTime := .num (.fin 1000000) }

/-- The ready controller in the custom mode with the window from 1000000 to 2000000. -/
def customWindow : State := { windowSet with timeRange := .str "0" }

/-- The ready controller once `startTime` is set to zero. -/
def zeroStart : State := { ready with startTime := .num (.fin 0) }

/-! ## Notions used to state and prove the properties -/

/-- A character between `0` and `9`. -/
def IsDecDigit (c : Char) : Prop := 48 ≤ c.toNat ∧ c.toNat ≤ 57

instance (c : Char) : Decidable (IsDecDigit c) := by
  unfold IsDecDigit
  infer_instance

/-- The value of a run of decimal digits read after `acc`. -/
def digitsValue (acc : Nat) (l : List Char) : Nat :=
  l.foldl (fun a c => a * 10 + (c.toNat - 48)) acc

/-- Whether `change()` resamples the clock: `this.timeRange > 0`. -/
def isRelative (s : State) : Bool := s.timeRange.toNumber.gtZero

/-- Whether `change()` takes the all-time branch: `parseInt(this.timeRange) === -1`. -/
def isAllTime (s : State) : Bool := decide (parseInt true s.timeRange = .fin (-1))

/-- The value of `currentTime` after `change()`. -/
def anchorAfter (now : Int) (s : State) : Int := if isRelative s then now else s.currentTime

/-- The value of `this.startTime` after `change()`. -/
def startAfter (now : Int) (s : State) : JSVal :=
  if isAllTime s then .num (.fin (hourMS * 5))
  else if isRelative s then
    .num (JSNum.sub (.fin now) (JSNum.mul (.fin hourMS) s.timeRange.toNumber))
  else s.startTime

/-- The value of `this.stopTime` after `change()`. -/
def stopAfter (now : Int) (s : State) : JSVal :=
  if isAllTime s then .num (.fin (anchorAfter now s))
  else if isRelative s then .num (.fin now)
  else s.stopTime

/-- The payload of the `change:search` that `change()` sends when it notifies. -/
def payloadAfter (now : Int) (s : State) : SearchArgs :=
  if isAllTime s then
    { expression := s.expression, strictly := s.strictly,
      date := some (.num (.fin (-1))), startTime := none, stopTime := none }
  else
    { expression := s.expression, strictly := s.strictly,
      date := none, startTime := some (secondsString (startAfter now s)),
      stopTime := some (secondsString (stopAfter now s)) }

/-- The value written under the `expression` key by `change()`. -/
def expressionParam (s : State) : JSVal :=
  if s.expression.truthy ∧ s.expression ≠ .str "" then s.expression else .null

/-- The state `$onInit()` hands to `change()` when it has set the given mode, window and
query parameters: the expression and the flag `strictly` come from the route parameters. -/
def initWith (s : State) (timeRange startTime stopTime : JSVal) (url : Params) : State :=
  { s with
    actionFormItemRadio := .str "visible"
    timeRange := timeRange
    startTime := startTime
    stopTime := stopTime
    url := url
    expression :=
      if (s.routeParams "expression").truthy then s.routeParams "expression" else .null
    strictly := (s.routeParams "strictly").truthy
    startTimePopup := some false
    stopTimePopup := some false
    dateTimeFormat := .str "yyyy/MM/dd HH:mm:ss"
    altInputFormats := ["yyyy/M!/d! H:mm:ss"] }

/-- The seconds of a route parameter as milliseconds: `parseInt(param * 1000, 10)`. -/
def paramMillis (v : JSVal) : JSNum := parseInt false (.num (JSNum.mul v.toNumber (.fin 1000)))

/-- Whether `$onInit()` accepts the incoming `startTime` and `stopTime`. -/
def paramsParse (s : State) : Prop :=
  (paramMillis (s.routeParams "stopTime")).truthy ∧
  (paramMillis (s.routeParams "startTime")).truthy ∧
  !(paramMillis (s.routeParams "stopTime")).isNaN ∧
  !(paramMillis (s.routeParams "startTime")).isNaN

instance (s : State) : Decidable (paramsParse s) := by
  unfold paramsParse
  infer_instance

/-- The expression value is a string or `null`, the two kinds of value the filter box and the
route give it. -/
def ExpressionTyped (t : State) : Prop := t.expression = .null ∨ ∃ e, t.expression = .str e

/-- The `expression` key of the URL is present exactly when the expression value is neither
`null` nor empty, and then holds that value. -/
def ExpressionInUrl (t : State) : Prop :=
  (t.url.has "expression" ↔ (t.expression ≠ .null ∧ t.expression ≠ .str "")) ∧
  (t.url.has "expression" → t.url "expression" = t.expression)

/-- The search state is the same in both states: the clock anchor, the mode, the window, the
displayed range, the expression, the flag `strictly`, the URL parameters and the
notifications sent. -/
def SameSearch (s t : State) : Prop :=
  t.currentTime = s.currentTime ∧ t.timeRange = s.timeRange ∧ t.startTime = s.startTime ∧
  t.stopTime = s.stopTime ∧ t.deltaTime = s.deltaTime ∧ t.expression = s.expression ∧
  t.strictly = s.strictly ∧ t.url = s.url ∧ t.emitted = s.emitted

/-! ## Decimal digits are read back as the number they write -/

theorem digitChar_toNat (d : Nat) (h : d < 10) : (Nat.digitChar d).toNat = 48 + d := by
  interval_cases d <;> rfl

theorem isDecDigit_digitChar (d : Nat) (h : d < 10) : IsDecDigit (Nat.digitChar d) := by
  unfold IsDecDigit
  rw [digitChar_toNat d h]
  omega

theorem digitIn_of_isDecDigit {c : Char} (h : IsDecDigit c) :
    digitIn 10 c = some (c.toNat - 48) := by
  obtain ⟨h1, h2⟩ := h
  have h3 : c.toNat - 48 < 10 := by omega
  simp [digitIn, digitValue, h1, h2, h3]

theorem isWhiteSpace_of_isDecDigit {c : Char} (h : IsDecDigit c) : isWhiteSpace c = false := by
  obtain ⟨h1, h2⟩ := h
  simp only [isWhiteSpace, Bool.or_eq_false_iff, decide_eq_false_iff_not, Bool.and_eq_false_imp,
    decide_eq_true_eq]
  omega

theorem digitsValue_eq (acc : Nat) (l : List Char) :
    digitsValue acc l = acc * 10 ^ l.length + digitsValue 0 l := by
  induction l generalizing acc with
  | nil => simp [digitsValue]
  | cons c tl ih =>
    have h1 := ih (acc * 10 + (c.toNat - 48))
    have h2 := ih (0 * 10 + (c.toNat - 48))
    simp only [digitsValue, List.foldl_cons, List.length_cons] at h1 h2 ⊢
    rw [h1, h2]
    ring

theorem readDigits_append {l : List Char} (hl : ∀ c ∈ l, IsDecDigit c) (rest : List Char)
    (acc cnt : Nat) :
    readDigits 10 (l ++ rest) acc cnt = readDigits 10 rest (digitsValue acc l) (cnt + l.length) := by
  induction l generalizing acc cnt with
  | nil => simp [digitsValue]
  | cons c tl ih =>
    have hc := digitIn_of_isDecDigit (hl c (List.mem_cons_self c tl))
    have htl : ∀ d ∈ tl, IsDecDigit d := fun d hd => hl d (List.mem_cons_of_mem c hd)
    have h := ih htl (acc * 10 + (c.toNat - 48)) (cnt + 1)
    rw [show cnt + 1 + tl.length = cnt + (tl.length + 1) by omega] at h
    simpa only [List.cons_append, readDigits, hc, digitsValue, List.foldl_cons,
      List.length_cons] using h

theorem toDigitsCore_spec (fuel : Nat) :
    ∀ (n : Nat) (ds : List Char), n < fuel → (∀ c ∈ ds, IsDecDigit c) →
      (∀ c ∈ Nat.toDigitsCore 10 fuel n ds, IsDecDigit c) ∧
      Nat.toDigitsCore 10 fuel n ds ≠ [] ∧
      digitsValue 0 (Nat.toDigitsCore 10 fuel n ds) = n * 10 ^ ds.length + digitsValue 0 ds := by
  induction fuel with
  | zero => intro n ds h; omega
  | succ fuel ih =>
    intro n ds hn hds
    have hd : IsDecDigit (Nat.digitChar (n % 10)) := isDecDigit_digitChar _ (Nat.mod_lt _ (by omega))
    have hds2 : ∀ c ∈ Nat.digitChar (n % 10) :: ds, IsDecDigit c := by
      intro c hc
      rcases List.mem_cons.mp hc with h | h
      · exact h ▸ hd
      · exact hds c h
    have hval : digitsValue 0 (Nat.digitChar (n % 10) :: ds) =
        (n % 10) * 10 ^ ds.length + digitsValue 0 ds := by
      have h := digitsValue_eq (0 * 10 + ((Nat.digitChar (n % 10)).toNat - 48)) ds
      rw [digitChar_toNat _ (Nat.mod_lt _ (by omega))] at h
      simp only [digitsValue, List.foldl_cons] at h ⊢
      rw [digitChar_toNat _ (Nat.mod_lt _ (by omega)), h]
      simp
    simp only [Nat.toDigitsCore]
    by_cases h0 : n / 10 = 0
    · simp only [h0, if_true]
      refine ⟨hds2, by simp, ?_⟩
      rw [hval]
      have : n % 10 = n := Nat.mod_eq_of_lt (by omega)
      rw [this]
    · simp only [h0, if_false]
      obtain ⟨h1, h2, h3⟩ := ih (n / 10) (Nat.digitChar (n % 10) :: ds) (by omega) hds2
      refine ⟨h1, h2, ?_⟩
      rw [h3, hval, List.length_cons, pow_succ]
      have h4 : n * 10 ^ ds.length = (10 * (n / 10) + n % 10) * 10 ^ ds.length := by
        rw [Nat.div_add_mod n 10]
      rw [h4]
      ring

theorem toDigits_spec (n : Nat) :
    (∀ c ∈ Nat.toDigits 10 n, IsDecDigit c) ∧ Nat.toDigits 10 n ≠ [] ∧
      digitsValue 0 (Nat.toDigits 10 n) = n := by
  have h := toDigitsCore_spec (n + 1) n [] (by omega) (by simp)
  simpa [Nat.toDigits, digitsValue] using h

theorem readDigits_toDigits (n : Nat) (rest : List Char) :
    readDigits 10 (Nat.toDigits 10 n ++ rest) 0 0 =
      readDigits 10 rest n (Nat.toDigits 10 n).length := by
  obtain ⟨h1, _, h3⟩ := toDigits_spec n
  rw [readDigits_append h1, h3, Nat.zero_add]

theorem trimStart_of_head {c : Char} (tl : List Char) (h : isWhiteSpace c = false) :
    trimStart (c :: tl) = c :: tl := by
  simp [trimStart, List.dropWhile, h]

theorem trim_eq_self {l : List Char} (hl : ∀ c ∈ l, isWhiteSpace c = false) : trim l = l := by
  have key : ∀ m : List Char, (∀ c ∈ m, isWhiteSpace c = false) → trimStart m = m := by
    intro m hm
    cases m with
    | nil => rfl
    | cons c tl => exact trimStart_of_head tl (hm c (List.mem_cons_self c tl))
  unfold trim
  rw [key l hl, key l.reverse (fun c hc => hl c (List.mem_reverse.mp hc)), List.reverse_reverse]

/-- What is read from a non-empty run of decimal digits. -/
theorem readUnsignedDecimal_digits (neg : Bool) {l : List Char} (hl : ∀ c ∈ l, IsDecDigit c)
    (hne : l ≠ []) : readUnsignedDecimal neg l = .finite neg (digitsValue 0 l) 0 := by
  have h := readDigits_append hl [] 0 0
  rw [List.append_nil] at h
  have hlen : l.length ≠ 0 := by simpa using hne
  simp [readUnsignedDecimal, h, readDigits, readExponent, hlen]

theorem ne_of_isDecDigit {c d : Char} (h : IsDecDigit c) (hd : ¬ IsDecDigit d) : c ≠ d := by
  intro hcd
  exact hd (hcd ▸ h)

theorem readSignedDecimal_digits {l : List Char} (hl : ∀ c ∈ l, IsDecDigit c) (hne : l ≠ []) :
    readSignedDecimal l = .finite false (digitsValue 0 l) 0 := by
  cases l with
  | nil => exact absurd rfl hne
  | cons c tl =>
    have hc : IsDecDigit c := hl c (List.mem_cons_self c tl)
    have h1 : c ≠ '+' := ne_of_isDecDigit hc (by decide)
    have h2 : c ≠ '-' := ne_of_isDecDigit hc (by decide)
    have h3 : c ≠ 'I' := ne_of_isDecDigit hc (by decide)
    have hs : (match c :: tl with
        | '+' :: r => (false, r)
        | '-' :: r => (true, r)
        | r => (false, r)) = (false, c :: tl) := by
      split
      · rename_i heq; exact absurd (List.cons.inj heq).1 h1
      · rename_i heq; exact absurd (List.cons.inj heq).1 h2
      · rfl
    have hI : c :: tl ≠ "Infinity".data := by
      intro heq
      exact h3 (List.cons.inj heq).1
    simp only [readSignedDecimal, hs, hI, if_false]
    exact readUnsignedDecimal_digits false hl hne

theorem stringToParsed_digits {l : List Char} (hl : ∀ c ∈ l, IsDecDigit c) (hne : l ≠ []) :
    stringToParsed l = .finite false (digitsValue 0 l) 0 := by
  have ht : trim l = l := trim_eq_self (fun c hc => isWhiteSpace_of_isDecDigit (hl c hc))
  unfold stringToParsed
  rw [ht]
  split
  · exact absurd rfl hne
  · rename_i x rest
    have hx : IsDecDigit x := hl x (by simp)
    have h1 : x ≠ 'x' := ne_of_isDecDigit hx (by decide)
    have h2 : x ≠ 'X' := ne_of_isDecDigit hx (by decide)
    have h3 : x ≠ 'o' := ne_of_isDecDigit hx (by decide)
    have h4 : x ≠ 'O' := ne_of_isDecDigit hx (by decide)
    have h5 : x ≠ 'b' := ne_of_isDecDigit hx (by decide)
    have h6 : x ≠ 'B' := ne_of_isDecDigit hx (by decide)
    simp only [h1, h2, h3, h4, h5, h6, or_self, if_false]
    exact readSignedDecimal_digits hl hne
  · exact readSignedDecimal_digits hl hne

theorem stringToParsed_minus_digits {l : List Char} (hl : ∀ c ∈ l, IsDecDigit c) (hne : l ≠ []) :
    stringToParsed ('-' :: l) = .finite true (digitsValue 0 l) 0 := by
  have ht : trim ('-' :: l) = '-' :: l := by
    apply trim_eq_self
    intro c hc
    rcases List.mem_cons.mp hc with h | h
    · subst h; decide
    · exact isWhiteSpace_of_isDecDigit (hl c h)
  have hI : l ≠ "Infinity".data := by
    intro heq
    have := hl 'I' (by rw [heq]; decide)
    exact absurd this (by decide)
  have hrs : readSignedDecimal ('-' :: l) = .finite true (digitsValue 0 l) 0 := by
    simp only [readSignedDecimal, hI, if_false]
    exact readUnsignedDecimal_digits true hl hne
  unfold stringToParsed
  rw [ht]
  split
  · rename_i heq; exact absurd heq (by simp)
  · rename_i x rest heq
    exact absurd (List.cons.inj heq).1 (by decide)
  · exact hrs

theorem parseIntChars_digits (strip : Bool) {l : List Char} (hl : ∀ c ∈ l, IsDecDigit c)
    (hne : l ≠ []) : parseIntChars strip l = some (digitsValue 0 l : Nat) := by
  cases l with
  | nil => exact absurd rfl hne
  | cons c tl =>
    have hc : IsDecDigit c := hl c (List.mem_cons_self c tl)
    have ht : trimStart (c :: tl) = c :: tl := trimStart_of_head tl (isWhiteSpace_of_isDecDigit hc)
    have h1 : c ≠ '+' := ne_of_isDecDigit hc (by decide)
    have h2 : c ≠ '-' := ne_of_isDecDigit hc (by decide)
    have hs : (match c :: tl with
        | '+' :: r => (false, r)
        | '-' :: r => (true, r)
        | r => (false, r)) = (false, c :: tl) := by
      split
      · rename_i heq; exact absurd (List.cons.inj heq).1 h1
      · rename_i heq; exact absurd (List.cons.inj heq).1 h2
      · rfl
    have hb : (match c :: tl with
        | '0' :: x :: r => if strip = true ∧ (x = 'x' ∨ x = 'X') then (16, r) else (10, c :: tl)
        | r => (10, r)) = (10, c :: tl) := by
      split
      · rename_i x r heq
        have hx : IsDecDigit x := hl x (by rw [heq]; simp)
        have h3 : x ≠ 'x' := ne_of_isDecDigit hx (by decide)
        have h4 : x ≠ 'X' := ne_of_isDecDigit hx (by decide)
        simp [h3, h4]
      · rfl
    have hr := readDigits_append hl [] 0 0
    rw [List.append_nil] at hr
    simp only [parseIntChars, ht, hs, hb, hr, readDigits]
    simp

theorem decimal_data (n : Nat) : (decimal n).data = Nat.toDigits 10 n := rfl

theorem decimal_eq_toString (n : Nat) : decimal n = toString n := rfl

/-- ToNumber reads the decimal digits of `n` as `n`. -/
theorem toNumber_decimal (n : Nat) : (JSVal.str (decimal n)).toNumber = .fin n := by
  obtain ⟨h1, h2, h3⟩ := toDigits_spec n
  simp [JSVal.toNumber, decimal_data, stringToParsed_digits h1 h2, h3, Parsed.toNum]

/-- The call `parseInt` reads the decimal digits of `n` as `n`. -/
theorem parseInt_decimal (strip : Bool) (n : Nat) : parseInt strip (.str (decimal n)) = .fin n := by
  obtain ⟨h1, h2, h3⟩ := toDigits_spec n
  simp [parseInt, decimal_data, parseIntChars_digits strip h1 h2, h3]

theorem toNumber_toFixed (x : JSNum) : (JSVal.str (toFixed x)).toNumber.isNaN = x.isNaN := by
  cases x with
  | nan => decide
  | pinf => decide
  | ninf => decide
  | fin q =>
    by_cases hq : q < 0
    · obtain ⟨h1, h2, h3⟩ := toDigits_spec (roundHalfUp (-q))
      have hd : (toFixed (.fin q)).data = '-' :: Nat.toDigits 10 (roundHalfUp (-q)) := by
        simp [toFixed, hq, String.data_append, decimal_data]
      simp [JSVal.toNumber, hd, stringToParsed_minus_digits h1 h2, Parsed.toNum, JSNum.isNaN]
    · obtain ⟨h1, h2, h3⟩ := toDigits_spec (roundHalfUp q)
      have hd : (toFixed (.fin q)).data = Nat.toDigits 10 (roundHalfUp q) := by
        simp [toFixed, hq, decimal_data]
      simp [JSVal.toNumber, hd, stringToParsed_digits h1 h2, Parsed.toNum, JSNum.isNaN]

theorem toFixed_ne_empty (x : JSNum) : toFixed x ≠ "" := by
  cases x with
  | nan => decide
  | pinf => decide
  | ninf => decide
  | fin q =>
    intro h
    have h2 := congrArg String.data h
    by_cases hq : q < 0
    · simp [toFixed, hq, String.data_append] at h2
    · simp only [toFixed, hq, if_false] at h2
      exact (toDigits_spec _).2.1 h2

theorem roundHalfUp_natCast (n : Nat) : roundHalfUp (n : ℚ) = n := by
  unfold roundHalfUp
  have h : ⌊(n : ℚ) + 1 / 2⌋ = (n : Int) := by
    rw [Int.floor_eq_iff]
    constructor <;> norm_num
  rw [h, Int.toNat_ofNat]

theorem toFixed_natCast (n : Nat) : toFixed (.fin (n : ℚ)) = decimal n := by
  have h : ¬ ((n : ℚ) < 0) := by
    simp
  simp only [toFixed, h, if_false, roundHalfUp_natCast]

/-! ## What `change()` leaves in each field -/

theorem change_eq (now : Int) (s : State) :
    change now s =
      { s with
        currentTime := anchorAfter now s
        url := s.url.search "expression" (expressionParam s)
        startTime := startAfter now s
        stopTime := stopAfter now s
        deltaTime := .num (JSNum.sub (stopAfter now s).toNumber (startAfter now s).toNumber)
        emitted :=
          if (startAfter now s).truthy ∧ (stopAfter now s).truthy then
            s.emitted ++ [.changeSearch (payloadAfter now s), .issueSearch s.expression]
          else s.emitted } := by
  by_cases h1 : s.expression.truthy = true ∧ s.expression ≠ .str ""
  all_goals by_cases h2 : s.timeRange.toNumber.gtZero = true
  all_goals by_cases h3 : parseInt true s.timeRange = .fin (-1)
  all_goals
    simp [change, State.search, isRelative, isAllTime, anchorAfter, startAfter, stopAfter,
      payloadAfter, expressionParam, h1, h2, h3]
  all_goals split_ifs <;> rfl

@[simp] theorem change_timeRange (now : Int) (s : State) :
    (change now s).timeRange = s.timeRange := by rw [change_eq]

@[simp] theorem change_expression (now : Int) (s : State) :
    (change now s).expression = s.expression := by rw [change_eq]

@[simp] theorem change_strictly (now : Int) (s : State) :
    (change now s).strictly = s.strictly := by rw [change_eq]

@[simp] theorem change_routeParams (now : Int) (s : State) :
    (change now s).routeParams = s.routeParams := by rw [change_eq]

@[simp] theorem change_currentTime (now : Int) (s : State) :
    (change now s).currentTime = anchorAfter now s := by rw [change_eq]

@[simp] theorem change_startTime (now : Int) (s : State) :
    (change now s).startTime = startAfter now s := by rw [change_eq]

@[simp] theorem change_stopTime (now : Int) (s : State) :
    (change now s).stopTime = stopAfter now s := by rw [change_eq]

@[simp] theorem change_deltaTime (now : Int) (s : State) :
    (change now s).deltaTime =
      .num (JSNum.sub (stopAfter now s).toNumber (startAfter now s).toNumber) := by
  rw [change_eq]

@[simp] theorem change_url (now : Int) (s : State) :
    (change now s).url = s.url.search "expression" (expressionParam s) := by rw [change_eq]

@[simp] theorem change_emitted (now : Int) (s : State) :
    (change now s).emitted =
      if (startAfter now s).truthy ∧ (stopAfter now s).truthy then
        s.emitted ++ [.changeSearch (payloadAfter now s), .issueSearch s.expression]
      else s.emitted := by rw [change_eq]

/-! ## The three time modes as `change()` tells them apart -/

theorem toNumber_str_minusOne : (JSVal.str "-1").toNumber = .fin (-1) := by
  have h : stringToParsed "-1".data = .finite true 1 0 := by decide
  simp [JSVal.toNumber, h, Parsed.toNum]

theorem parseInt_str_minusOne : parseInt true (.str "-1") = .fin (-1) := by
  have h : parseIntChars true "-1".data = some (-1) := by decide
  simp [parseInt, h]

theorem toNumber_str_zero : (JSVal.str "0").toNumber = .fin 0 := by
  have h : stringToParsed "0".data = .finite false 0 0 := by decide
  simp [JSVal.toNumber, h, Parsed.toNum]

theorem parseInt_str_zero : parseInt true (.str "0") = .fin 0 := by
  have h : parseIntChars true "0".data = some 0 := by decide
  simp [parseInt, h]

theorem toNumber_str_one : (JSVal.str "1").toNumber = .fin 1 := by
  have h : stringToParsed "1".data = .finite false 1 0 := by decide
  simp [JSVal.toNumber, h, Parsed.toNum]

theorem parseInt_str_one : parseInt true (.str "1") = .fin 1 := by
  have h : parseIntChars true "1".data = some 1 := by decide
  simp [parseInt, h]

theorem truncate_intCast (i : Int) : truncate (i : ℚ) = i := by
  unfold truncate
  split_ifs <;> simp

theorem truncate_natCast (n : Nat) : truncate (n : ℚ) = n := by
  have h := truncate_intCast (n : Int)
  simpa using h

/-- A relative mode `n > 0`, stored as a string or as a number: its numeric value is `n`. -/
theorem relative_toNumber {n : Nat} {v : JSVal}
    (hv : v = .str (decimal n) ∨ v = .num (.fin n)) : v.toNumber = .fin n := by
  rcases hv with h | h
  · rw [h, toNumber_decimal]
  · rw [h]; rfl

theorem relative_parseInt {n : Nat} {v : JSVal}
    (hv : v = .str (decimal n) ∨ v = .num (.fin n)) : parseInt true v = .fin n := by
  rcases hv with h | h
  · rw [h, parseInt_decimal]
  · rw [h]; simp [parseInt, truncate_natCast]

theorem fin_natCast_ne_minusOne (n : Nat) : JSNum.fin (n : ℚ) ≠ .fin (-1) := by
  intro h
  have h2 : (n : ℚ) = -1 := by injection h
  have h3 : (0 : ℚ) ≤ n := Nat.cast_nonneg n
  linarith

theorem isRelative_of_relative {n : Nat} (hn : 0 < n) {s : State}
    (hv : s.timeRange = .str (decimal n) ∨ s.timeRange = .num (.fin n)) :
    isRelative s = true := by
  simp [isRelative, relative_toNumber hv, JSNum.gtZero, hn]

theorem isAllTime_of_relative {n : Nat} {s : State}
    (hv : s.timeRange = .str (decimal n) ∨ s.timeRange = .num (.fin n)) :
    isAllTime s = false := by
  have h := fin_natCast_ne_minusOne n
  simp only [isAllTime, relative_parseInt hv, decide_eq_false_iff_not]
  exact h

theorem isRelative_of_allTime {s : State} (h : s.timeRange = .str "-1") :
    isRelative s = false := by
  simp [isRelative, h, toNumber_str_minusOne, JSNum.gtZero]

theorem isAllTime_of_allTime {s : State} (h : s.timeRange = .str "-1") :
    isAllTime s = true := by
  simp [isAllTime, h, parseInt_str_minusOne]

theorem isRelative_of_custom {s : State} (h : s.timeRange = .str "0") :
    isRelative s = false := by
  simp [isRelative, h, toNumber_str_zero, JSNum.gtZero]

theorem isAllTime_of_custom {s : State} (h : s.timeRange = .str "0") :
    isAllTime s = false := by
  have h0 : JSNum.fin 0 ≠ .fin (-1) := by
    intro h1
    have h2 : (0 : ℚ) = -1 := by injection h1
    norm_num at h2
  simp [isAllTime, h, parseInt_str_zero, h0]

/-! ## What `$onInit()` sets before it calls `change()` -/

theorem onInit_date (now : Int) (s : State) (hd : (s.routeParams "date").truthy = true) :
    onInit now s = change now
      (initWith s (s.routeParams "date")
        (if s.routeParams "date" = .str "-1" then .num (.fin (hourMS * 5)) else s.startTime)
        (if s.routeParams "date" = .str "-1" then .num (.fin s.currentTime) else s.stopTime)
        ((s.url.search "stopTime" .null).search "startTime" .null)) := by
  have ht : (JSVal.str "-1").truthy = true := by decide
  by_cases h1 : s.routeParams "date" = .str "-1"
  all_goals by_cases h2 : (s.routeParams "expression").truthy = true
  all_goals by_cases h3 : (s.routeParams "strictly").truthy = true
  all_goals simp [onInit, initWith, State.search, ht, hd, h1, h2, h3]

theorem onInit_custom (now : Int) (s : State) (hd : (s.routeParams "date").truthy = false)
    (h1 : (s.routeParams "startTime").truthy = true)
    (h2 : (s.routeParams "stopTime").truthy = true) (hp : paramsParse s) :
    onInit now s = change now
      (initWith s (.str "0") (.num (paramMillis (s.routeParams "startTime")))
        (.num (paramMillis (s.routeParams "stopTime"))) s.url) := by
  have hp2 := hp
  unfold paramsParse paramMillis at hp2
  by_cases h3 : (s.routeParams "expression").truthy = true
  all_goals by_cases h4 : (s.routeParams "strictly").truthy = true
  all_goals simp [onInit, initWith, State.search, paramMillis, hd, h1, h2, h3, h4, hp2]

theorem onInit_unparsed (now : Int) (s : State) (hd : (s.routeParams "date").truthy = false)
    (h1 : (s.routeParams "startTime").truthy = true)
    (h2 : (s.routeParams "stopTime").truthy = true) (hp : ¬ paramsParse s) :
    onInit now s = change now
      (initWith s (.str "1") s.startTime s.stopTime
        (((s.url.search "date" (.str "1")).search "stopTime" .null).search "startTime" .null)) := by
  have hfold : ((parseInt false (JSVal.num
        ((s.routeParams "stopTime").toNumber.mul (JSNum.fin 1000)))).truthy = true ∧
      (parseInt false (JSVal.num
        ((s.routeParams "startTime").toNumber.mul (JSNum.fin 1000)))).truthy = true ∧
      (parseInt false (JSVal.num
        ((s.routeParams "stopTime").toNumber.mul (JSNum.fin 1000)))).isNaN = false ∧
      (parseInt false (JSVal.num
        ((s.routeParams "startTime").toNumber.mul (JSNum.fin 1000)))).isNaN = false) ↔
      paramsParse s := by
    simp [paramsParse, paramMillis]
  by_cases h3 : (s.routeParams "expression").truthy = true
  all_goals by_cases h4 : (s.routeParams "strictly").truthy = true
  all_goals simp [onInit, initWith, State.search, hd, h1, h2, h3, h4, hfold, hp]

theorem onInit_default (now : Int) (s : State) (hd : (s.routeParams "date").truthy = false)
    (h1 : (s.routeParams "startTime").truthy = false)
    (h2 : (s.routeParams "stopTime").truthy = false) :
    onInit now s = change now
      (initWith s (.str "1") s.startTime s.stopTime (s.url.search "date" (.str "1"))) := by
  by_cases h3 : (s.routeParams "expression").truthy = true
  all_goals by_cases h4 : (s.routeParams "strictly").truthy = true
  all_goals simp [onInit, initWith, State.search, hd, h1, h2, h3, h4]

theorem onInit_partial (now : Int) (s : State) (hd : (s.routeParams "date").truthy = false)
    (h : (s.routeParams "startTime").truthy ≠ (s.routeParams "stopTime").truthy) :
    onInit now s = change now (initWith s s.timeRange s.startTime s.stopTime s.url) := by
  by_cases h1 : (s.routeParams "startTime").truthy = true
  all_goals by_cases h2 : (s.routeParams "stopTime").truthy = true
  all_goals by_cases h3 : (s.routeParams "expression").truthy = true
  all_goals by_cases h4 : (s.routeParams "strictly").truthy = true
  all_goals simp [h1, h2] at h
  all_goals simp [onInit, initWith, State.search, hd, h1, h2, h3, h4]

theorem startAfter_custom (now : Int) {s : State} (h : s.timeRange = .str "0") :
    startAfter now s = s.startTime := by
  simp [startAfter, isRelative_of_custom h, isAllTime_of_custom h]

theorem stopAfter_custom (now : Int) {s : State} (h : s.timeRange = .str "0") :
    stopAfter now s = s.stopTime := by
  simp [stopAfter, isRelative_of_custom h, isAllTime_of_custom h]

theorem payloadAfter_custom (now : Int) {s : State} (h : s.timeRange = .str "0") :
    payloadAfter now s =
      { expression := s.expression, strictly := s.strictly, date := none,
        startTime := some (secondsString s.startTime),
        stopTime := some (secondsString s.stopTime) } := by
  simp [payloadAfter, isAllTime_of_custom h, startAfter_custom now h, stopAfter_custom now h]

theorem startAfter_allTime (now : Int) {s : State} (h : s.timeRange = .str "-1") :
    startAfter now s = .num (.fin (hourMS * 5)) := by
  simp [startAfter, isAllTime_of_allTime h]

theorem stopAfter_allTime (now : Int) {s : State} (h : s.timeRange = .str "-1") :
    stopAfter now s = .num (.fin s.currentTime) := by
  simp [stopAfter, anchorAfter, isRelative_of_allTime h, isAllTime_of_allTime h]

theorem payloadAfter_allTime (now : Int) {s : State} (h : s.timeRange = .str "-1") :
    payloadAfter now s =
      { expression := s.expression, strictly := s.strictly, date := some (.num (.fin (-1))),
        startTime := none, stopTime := none } := by
  simp [payloadAfter, isAllTime_of_allTime h]

/-! ## A second `change()` at the same clock reading -/

theorem isRelative_change (now : Int) (s : State) :
    isRelative (change now s) = isRelative s := by
  simp [isRelative]

theorem isAllTime_change (now : Int) (s : State) :
    isAllTime (change now s) = isAllTime s := by
  simp [isAllTime]

theorem anchorAfter_change (now : Int) (s : State) :
    anchorAfter now (change now s) = anchorAfter now s := by
  simp only [anchorAfter, isRelative_change, change_currentTime]
  split_ifs <;> rfl

theorem startAfter_change (now : Int) (s : State) :
    startAfter now (change now s) = startAfter now s := by
  simp only [startAfter, isRelative_change, isAllTime_change, change_timeRange, change_startTime]
  split_ifs <;> rfl

theorem stopAfter_change (now : Int) (s : State) :
    stopAfter now (change now s) = stopAfter now s := by
  simp only [stopAfter, isRelative_change, isAllTime_change, anchorAfter_change,
    change_stopTime]
  split_ifs <;> rfl

theorem payloadAfter_change (now : Int) (s : State) :
    payloadAfter now (change now s) = payloadAfter now s := by
  simp only [payloadAfter, isAllTime_change, startAfter_change, stopAfter_change,
    change_expression, change_strictly]

theorem payloadAfter_expression (now : Int) (s : State) :
    (payloadAfter now s).expression = s.expression := by
  unfold payloadAfter
  split_ifs <;> rfl

theorem payloadAfter_strictly (now : Int) (s : State) :
    (payloadAfter now s).strictly = s.strictly := by
  unfold payloadAfter
  split_ifs <;> rfl

/-! ## The guard of `changeDate()` -/

theorem div_thousand_isNaN (x : JSNum) : (JSNum.div x (.fin 1000)).isNaN = x.isNaN := by
  cases x <;> simp [JSNum.div, JSNum.isNaN]
  all_goals split_ifs <;> rfl

theorem secondsString_truthy (v : JSVal) : (secondsString v).truthy = true := by
  simp [secondsString, JSVal.truthy, toFixed_ne_empty]

theorem secondsString_isNaN (v : JSVal) : (secondsString v).isNaN = v.isNaN := by
  simp only [secondsString, JSVal.isNaN, toNumber_toFixed, div_thousand_isNaN]

theorem changeDate_abort (now : Int) (s : State)
    (h : s.startTime.isNaN = true ∨ s.stopTime.isNaN = true) :
    changeDate now s = { s with timeRange := .str "0" } := by
  unfold changeDate
  simp only [secondsString_truthy, secondsString_isNaN]
  rcases h with h | h <;> simp [h]

theorem changeDate_proceed (now : Int) (s : State)
    (h1 : s.startTime.isNaN = false) (h2 : s.stopTime.isNaN = false) :
    changeDate now s = change now
      { s with
        timeRange := .str "0"
        url := ((s.url.search "date" .null).search "stopTime" (secondsString s.stopTime)).search
          "startTime" (secondsString s.startTime) } := by
  unfold changeDate
  simp only [secondsString_truthy, secondsString_isNaN]
  simp [h1, h2, State.search]

theorem secondsString_millis (n : Nat) :
    secondsString (.num (.fin (1000 * n))) = .str (decimal n) := by
  have h : (1000 : ℚ) * n / 1000 = n := by
    field_simp
  simp only [secondsString, JSVal.toNumber, JSNum.div]
  norm_num [h, toFixed_natCast]

theorem isRelative_of_one {s : State} (h : s.timeRange = .str "1") : isRelative s = true := by
  simp [isRelative, h, toNumber_str_one, JSNum.gtZero]

theorem isAllTime_of_one {s : State} (h : s.timeRange = .str "1") : isAllTime s = false := by
  have h0 : JSNum.fin 1 ≠ .fin (-1) := by
    intro h1
    have h2 : (1 : ℚ) = -1 := by injection h1
    norm_num at h2
  simp [isAllTime, h, parseInt_str_one, h0]

/-! ## The ready controller -/

theorem ready_eq :
    ready = change 1700000000000
      (initWith (State.fresh 1699999999000 noParams) (.str "1") .undefined .undefined
        (noParams.search "date" (.str "1"))) :=
  onInit_default 1700000000000 (State.fresh 1699999999000 noParams) rfl rfl rfl

theorem ready_timeRange : ready.timeRange = .str "1" := by
  rw [ready_eq, change_timeRange]; rfl

theorem ready_currentTime : ready.currentTime = 1700000000000 := by
  rw [ready_eq, change_currentTime, anchorAfter, isRelative_of_one rfl]; rfl

theorem ready_stopTime : ready.stopTime = .num (.fin 1700000000000) := by
  rw [ready_eq, change_stopTime, stopAfter, isAllTime_of_one rfl, isRelative_of_one rfl]
  norm_num

theorem ready_expression : ready.expression = .null := by
  rw [ready_eq, change_expression]; rfl

theorem ready_strictly : ready.strictly = false := by
  rw [ready_eq, change_strictly]; rfl

theorem ready_url_date : ready.url "date" = .str "1" := by
  rw [ready_eq, change_url]
  simp [initWith, Params.search]

theorem ready_url_startTime : ready.url "startTime" = .undefined := by
  rw [ready_eq, change_url]
  simp [initWith, Params.search, noParams]

/-! ## Claims -/

theorem change_allTime_fields (now : Int) (t : State) (h : t.timeRange = .str "-1") :
    (change now t).startTime = .num (.fin (5 * 3600000)) ∧
    (change now t).stopTime = .num (.fin t.currentTime) ∧
    JSNum.sub (change now t).stopTime.toNumber (change now t).startTime.toNumber
      = .fin (t.currentTime - 5 * 3600000) ∧
    (change now t).deltaTime = .num (.fin (t.currentTime - 5 * 3600000)) := by
  have h1 : startAfter now t = .num (.fin (5 * 3600000)) := by
    rw [startAfter_allTime now h]
    norm_num [hourMS]
  have h2 : stopAfter now t = .num (.fin t.currentTime) := stopAfter_allTime now h
  simp only [change_startTime, change_stopTime, change_deltaTime, h1, h2]
  simp [JSVal.toNumber, JSNum.sub]

theorem onInit_allTime_fields (now : Int) (s : State) (h : s.routeParams "date" = .str "-1") :
    (onInit now s).startTime = .num (.fin (5 * 3600000)) ∧
    (onInit now s).stopTime = .num (.fin s.currentTime) ∧
    JSNum.sub (onInit now s).stopTime.toNumber (onInit now s).startTime.toNumber
      = .fin (s.currentTime - 5 * 3600000) ∧
    (onInit now s).deltaTime = .num (.fin (s.currentTime - 5 * 3600000)) := by
  have ht : (s.routeParams "date").truthy = true := by rw [h]; decide
  rw [onInit_date now s ht]
  exact change_allTime_fields now _ (by simp [initWith, h])

/-- C2, refuted: from the ready controller, whose anchor `currentTime` is 1700000000000,
`change()` in the all-time mode leaves the window from 18000000 to 1700000000000, whose length
1699982000000 is not five hours; and `$onInit()` for an incoming `date` of `-1`, with the
module loaded at 1699999999000, leaves a `deltaTime` of 1699981999000. -/
theorem allTime_window_counterexample :
    everything.timeRange = .str "-1" ∧
    (change 1700000003000 everything).startTime = .num (.fin 18000000) ∧
    (change 1700000003000 everything).stopTime = .num (.fin 1700000000000) ∧
    (change 1700000003000 everything).deltaTime = .num (.fin 1699982000000) ∧
    (change 1700000003000 everything).deltaTime ≠ .num (.fin (5 * 3600000)) ∧
    (onInit 1700000000000 (State.fresh 1699999999000 dateAllTime)).deltaTime
      = .num (.fin 1699981999000) ∧
    (onInit 1700000000000 (State.fresh 1699999999000 dateAllTime)).deltaTime
      ≠ .num (.fin (5 * 3600000)) := by
  have h : everything.timeRange = .str "-1" := rfl
  have hc : everything.currentTime = 1700000000000 := ready_currentTime
  obtain ⟨h1, h2, _, h3⟩ := change_allTime_fields 1700000003000 everything h
  obtain ⟨_, _, _, h4⟩ :=
    onInit_allTime_fields 1700000000000 (State.fresh 1699999999000 dateAllTime) rfl
  have hf : (State.fresh 1699999999000 dateAllTime).currentTime = 1699999999000 := rfl
  rw [hc] at h2 h3
  rw [hf] at h4
  have h3b : (change 1700000003000 everything).deltaTime = .num (.fin 1699982000000) := by
    rw [h3]; norm_num
  have h4b : (onInit 1700000000000 (State.fresh 1699999999000 dateAllTime)).deltaTime
      = .num (.fin 1699981999000) := by
    rw [h4]; norm_num
  refine ⟨h, ?_, ?_, h3b, ?_, h4b, ?_⟩
  · rw [h1]; norm_num
  · rw [h2]; norm_num
  · rw [h3b]; norm_num
  · rw [h4b]; norm_num

/-- C2, amended: in the all-time mode (`timeRange` the string `-1`) `change()` sets
`startTime` to the fixed timestamp `5 * 3600000` and `stopTime` to the anchor `currentTime`,
which it does not resample, so that `stopTime - startTime` and `deltaTime` are
`currentTime - 5 * 3600000`; `$onInit()` with an incoming `date` of `-1` leaves the same
window. -/
theorem allTime_window (s : State) (now : Int) :
    (s.timeRange = .str "-1" →
      (change now s).startTime = .num (.fin (5 * 3600000)) ∧
      (change now s).stopTime = .num (.fin s.currentTime) ∧
      JSNum.sub (change now s).stopTime.toNumber (change now s).startTime.toNumber
        = .fin (s.currentTime - 5 * 3600000) ∧
      (change now s).deltaTime = .num (.fin (s.currentTime - 5 * 3600000))) ∧
    (s.routeParams "date" = .str "-1" →
      (onInit now s).startTime = .num (.fin (5 * 3600000)) ∧
      (onInit now s).stopTime = .num (.fin s.currentTime) ∧
      JSNum.sub (onInit now s).stopTime.toNumber (onInit now s).startTime.toNumber
        = .fin (s.currentTime - 5 * 3600000) ∧
      (onInit now s).deltaTime = .num (.fin (s.currentTime - 5 * 3600000))) :=
  ⟨change_allTime_fields now s, onInit_allTime_fields now s⟩

/-- C2 amended, at the ready controller with the all-time mode selected. -/
theorem allTime_window_witness :
    everything.timeRange = .str "-1" ∧
    (change 1700000003000 everything).startTime = .num (.fin (5 * 3600000)) ∧
    (change 1700000003000 everything).stopTime = .num (.fin everything.currentTime) ∧
    (change 1700000003000 everything).deltaTime
      = .num (.fin ((everything.currentTime : ℚ) - 5 * 3600000)) :=
  ⟨rfl, ((allTime_window everything 1700000003000).1 rfl).1,
    ((allTime_window everything 1700000003000).1 rfl).2.1,
    ((allTime_window everything 1700000003000).1 rfl).2.2.2⟩

/-- C3, at the incoming parameters `?startTime=1000`: no branch of `$onInit()` is taken, the
mode stays unset, and the URL is left with a `startTime` key and neither a `date` key nor a
`stopTime` key, so it holds neither time encoding; nothing is sent either. -/
theorem onInit_onlyStartTime :
    (onInit 1700000003000 (State.fresh 1700000000000 onlyStartTime)).url "date" = .undefined ∧
    (onInit 1700000003000 (State.fresh 1700000000000 onlyStartTime)).url "startTime"
      = .str "1000" ∧
    (onInit 1700000003000 (State.fresh 1700000000000 onlyStartTime)).url "stopTime"
      = .undefined ∧
    (onInit 1700000003000 (State.fresh 1700000000000 onlyStartTime)).timeRange = .undefined ∧
    (onInit 1700000003000 (State.fresh 1700000000000 onlyStartTime)).emitted = [] ∧
    ¬ ((onInit 1700000003000 (State.fresh 1700000000000 onlyStartTime)).url.has "date" ∨
        ((onInit 1700000003000 (State.fresh 1700000000000 onlyStartTime)).url.has "startTime" ∧
          (onInit 1700000003000 (State.fresh 1700000000000 onlyStartTime)).url.has "stopTime")) := by
  have h : onInit 1700000003000 (State.fresh 1700000000000 onlyStartTime) = _ :=
    onInit_partial 1700000003000 (State.fresh 1700000000000 onlyStartTime)
      (by simp [State.fresh, onlyStartTime, JSVal.truthy])
      (by simp [State.fresh, onlyStartTime, JSVal.truthy])
  rw [h]
  simp [initWith, State.fresh, onlyStartTime, Params.search, Params.has, startAfter, stopAfter,
    isAllTime, isRelative, parseInt, JSVal.toNumber, JSNum.gtZero, JSVal.truthy, expressionParam]

theorem search_other {p : Params} {key k : String} (v : JSVal) (h : k ≠ key) :
    (p.search key v) k = p k := by
  simp [Params.search, h]

/-- C6: when none of `date`, `startTime` and `stopTime` has a value at startup, `$onInit()`
leaves the mode `1`, the `date` key of the URL at `1`, and the window `stopTime = now`,
`startTime = now - 3600000` for the clock reading `now` of the initialization. -/
theorem onInit_noTime (st : State) (now : Int)
    (hd : (st.routeParams "date").truthy = false)
    (h1 : (st.routeParams "startTime").truthy = false)
    (h2 : (st.routeParams "stopTime").truthy = false) :
    (onInit now st).timeRange = .str "1" ∧
    (onInit now st).url "date" = .str "1" ∧
    (onInit now st).stopTime = .num (.fin now) ∧
    (onInit now st).startTime = .num (.fin (now - 3600000)) := by
  rw [onInit_default now st hd h1 h2]
  have hc : (initWith st (.str "1") st.startTime st.stopTime
      (st.url.search "date" (.str "1"))).timeRange = .str "1" := rfl
  have hr := isRelative_of_one hc
  have ha := isAllTime_of_one hc
  refine ⟨by rw [change_timeRange]; rfl, ?_, ?_, ?_⟩
  · rw [change_url]
    simp [initWith, Params.search]
  · rw [change_stopTime]
    simp only [stopAfter, hr, ha, if_true, Bool.false_eq_true, if_false]
  · rw [change_startTime]
    simp only [startAfter, hr, ha, if_true, Bool.false_eq_true, if_false, hc, toNumber_str_one,
      JSNum.mul, JSNum.sub, hourMS]
    norm_num

/-- C6 at a route with no parameter at all. -/
theorem onInit_noTime_witness :
    (onInit 1700000003000 (State.fresh 1700000000000 noParams)).timeRange = .str "1" ∧
    (onInit 1700000003000 (State.fresh 1700000000000 noParams)).url "date" = .str "1" ∧
    (onInit 1700000003000 (State.fresh 1700000000000 noParams)).stopTime
      = .num (.fin 1700000003000) ∧
    (onInit 1700000003000 (State.fresh 1700000000000 noParams)).startTime
      = .num (.fin 1699996403000) := by
  have h := onInit_noTime (State.fresh 1700000000000 noParams) 1700000003000 rfl rfl rfl
  refine ⟨h.1, h.2.1, ?_, ?_⟩
  · rw [h.2.2.1]; norm_num
  · rw [h.2.2.2]; norm_num

theorem secondsString_zero : secondsString (.num (.fin 0)) = .str "0" := by
  have h : roundHalfUp 0 = 0 := by
    unfold roundHalfUp
    norm_num
  simp only [secondsString, JSVal.toNumber, JSNum.div]
  norm_num [toFixed, h]
  rfl

/-- C7, refuted: from the ready controller (mode `1`) with `startTime` cleared,
`changeDate()` still changes `timeRange` to `0`, so the state is not what it was; and with
`startTime` set to zero it goes on to write the `startTime` and `stopTime` keys of the URL,
which were absent, and to remove the `date` key. -/
theorem changeDate_noop_counterexample :
    unsetWindow.startTime = .undefined ∧
    unsetWindow.timeRange = .str "1" ∧
    (changeDate 1700000003000 unsetWindow).timeRange = .str "0" ∧
    changeDate 1700000003000 unsetWindow ≠ unsetWindow ∧
    zeroStart.startTime = .num (.fin 0) ∧
    zeroStart.url "startTime" = .undefined ∧
    zeroStart.url "date" = .str "1" ∧
    (changeDate 1700000003000 zeroStart).url "startTime" = .str "0" ∧
    (changeDate 1700000003000 zeroStart).url "stopTime" = .str "1700000000" ∧
    (changeDate 1700000003000 zeroStart).url "date" = .undefined := by
  have e1 : changeDate 1700000003000 unsetWindow = { unsetWindow with timeRange := .str "0" } :=
    changeDate_abort _ _ (Or.inl rfl)
  have hstop : zeroStart.stopTime = .num (.fin (1000 * (1700000000 : Nat))) := by
    have h : zeroStart.stopTime = ready.stopTime := rfl
    rw [h, ready_stopTime]
    norm_num
  have hstart : zeroStart.startTime = .num (.fin 0) := rfl
  have e2 : changeDate 1700000003000 zeroStart = _ :=
    changeDate_proceed _ _ rfl (by rw [hstop]; rfl)
  have hu : zeroStart.url = ready.url := rfl
  refine ⟨rfl, ready_timeRange, ?_, ?_, rfl, ?_, ?_, ?_, ?_, ?_⟩
  · rw [e1]
  · rw [e1]
    intro h
    have h2 := congrArg State.timeRange h
    have h3 : unsetWindow.timeRange = .str "1" := ready_timeRange
    rw [h3] at h2
    simp at h2
  · rw [hu]; exact ready_url_startTime
  · rw [hu]; exact ready_url_date
  · rw [e2, change_url, hstart, secondsString_zero]
    simp [Params.search]
  · rw [e2, change_url, hstop, secondsString_millis]
    simp [Params.search]
    rfl
  · rw [e2, change_url]
    simp [Params.search]

/-- C7, amended: in every state in which `startTime` or `stopTime` is not a number
(`undefined`, `NaN`, or any other value that `isNaN` rejects), `changeDate()` sets `timeRange`
to `0` and does nothing else: every other field keeps its value, the URL is not written and
nothing is sent. -/
theorem changeDate_invalid (s : State) (now : Int)
    (h : s.startTime.isNaN = true ∨ s.stopTime.isNaN = true) :
    changeDate now s = { s with timeRange := .str "0" } ∧
    (changeDate now s).url = s.url ∧
    (changeDate now s).emitted = s.emitted := by
  rw [changeDate_abort now s h]
  exact ⟨rfl, rfl, rfl⟩

/-- C7 amended, at a controller whose `startTime` is unset. -/
theorem changeDate_invalid_witness :
    (unsetWindow.startTime.isNaN = true ∨ unsetWindow.stopTime.isNaN = true) ∧
    changeDate 1700000003000 unsetWindow = { unsetWindow with timeRange := .str "0" } :=
  ⟨Or.inl rfl, (changeDate_invalid unsetWindow 1700000003000 (Or.inl rfl)).1⟩

/-- C8: each call of `change()` sends either nothing or exactly two notifications, one
`change:search` followed by one `issue:search`, both with the current expression; it sends
them exactly when `startTime` and `stopTime` are both truthy once the time is resolved; and a
second call at the same clock reading, which resolves the same values, sends the same pair
again. -/
theorem change_notifies (s : State) (now : Int) :
    ∃ args : SearchArgs, args.expression = s.expression ∧
      (change now s).emitted =
        (if (change now s).startTime.truthy ∧ (change now s).stopTime.truthy then
          s.emitted ++ [.changeSearch args, .issueSearch s.expression]
        else s.emitted) ∧
      (change now (change now s)).startTime = (change now s).startTime ∧
      (change now (change now s)).stopTime = (change now s).stopTime ∧
      (change now (change now s)).emitted =
        (if (change now s).startTime.truthy ∧ (change now s).stopTime.truthy then
          (change now s).emitted ++ [.changeSearch args, .issueSearch s.expression]
        else (change now s).emitted) := by
  refine ⟨payloadAfter now s, payloadAfter_expression now s, ?_, ?_, ?_, ?_⟩
  · simp only [change_emitted, change_startTime, change_stopTime]
  · simp only [change_startTime, startAfter_change]
  · simp only [change_stopTime, stopAfter_change]
  · rw [change_emitted now (change now s)]
    simp only [startAfter_change, stopAfter_change, payloadAfter_change, change_expression,
      change_startTime, change_stopTime]

/-- C9: when `change()` sends `change:search`, the `expression` and `strictly` of the payload
are those of the state; in the all-time mode (`timeRange` the string `-1`) the payload has
`date = -1` and neither `startTime` nor `stopTime`; in the custom mode and in every relative
mode it has no `date`, and its `startTime` and `stopTime` are the resolved `startTime` and
`stopTime` written in whole seconds. -/
theorem change_payload (s : State) (now : Int) (args : SearchArgs)
    (h : Event.changeSearch args ∈ (change now s).emitted.drop s.emitted.length) :
    args.expression = (change now s).expression ∧
    args.strictly = (change now s).strictly ∧
    (s.timeRange = .str "-1" →
      args.date = some (.num (.fin (-1))) ∧ args.startTime = none ∧ args.stopTime = none) ∧
    ((s.timeRange = .str "0" ∨
        ∃ n : Nat, 0 < n ∧ (s.timeRange = .str (decimal n) ∨ s.timeRange = .num (.fin n))) →
      args.date = none ∧
      args.startTime = some (secondsString (change now s).startTime) ∧
      args.stopTime = some (secondsString (change now s).stopTime)) := by
  have hargs : args = payloadAfter now s := by
    rw [change_emitted] at h
    split_ifs at h
    · simpa using h
    · simp at h
  subst hargs
  refine ⟨?_, ?_, ?_, ?_⟩
  · rw [change_expression, payloadAfter_expression]
  · rw [change_strictly, payloadAfter_strictly]
  · intro hm
    simp [payloadAfter, isAllTime_of_allTime hm]
  · intro hm
    have ha : isAllTime s = false := by
      rcases hm with hm | ⟨n, _, hm⟩
      · exact isAllTime_of_custom hm
      · exact isAllTime_of_relative hm
    simp [payloadAfter, ha]

theorem change_everything_emitted :
    (change 1700000003000 everything).emitted
      = everything.emitted ++
        [.changeSearch
          { expression := .null, strictly := false, date := some (.num (.fin (-1))),
            startTime := none, stopTime := none },
         .issueSearch .null] := by
  have h : everything.timeRange = .str "-1" := rfl
  have hc : everything.currentTime = 1700000000000 := ready_currentTime
  have he : everything.expression = .null := ready_expression
  have hs : everything.strictly = false := ready_strictly
  have h1 : (JSVal.num (.fin (hourMS * 5))).truthy = true := by
    simp [JSVal.truthy, JSNum.truthy, hourMS]
  have h2 : (JSVal.num (.fin everything.currentTime)).truthy = true := by
    rw [hc]
    simp [JSVal.truthy, JSNum.truthy]
  rw [change_emitted, startAfter_allTime _ h, stopAfter_allTime _ h, payloadAfter_allTime _ h]
  simp only [h1, h2, and_self, if_true, he, hs]

/-- C9 in the all-time mode, where the payload carries `date = -1`. -/
theorem change_payload_witness :
    Event.changeSearch
        { expression := .null, strictly := false, date := some (.num (.fin (-1))),
          startTime := none, stopTime := none }
      ∈ (change 1700000003000 everything).emitted.drop everything.emitted.length ∧
    everything.timeRange = .str "-1" ∧
    (({ expression := .null, strictly := false, date := some (.num (.fin (-1))),
        startTime := none, stopTime := none } : SearchArgs).date = some (.num (.fin (-1)))) :=
  ⟨by rw [change_everything_emitted]; simp,
   rfl,
   ((change_payload everything 1700000003000 _
    (by rw [change_everything_emitted]; simp)).2.2.1 rfl).1⟩

theorem changeDate_window (now : Int) (s : State) :
    (changeDate now s).startTime = s.startTime ∧ (changeDate now s).stopTime = s.stopTime := by
  by_cases h1 : s.startTime.isNaN = true
  · rw [changeDate_abort now s (Or.inl h1)]
    exact ⟨rfl, rfl⟩
  · by_cases h2 : s.stopTime.isNaN = true
    · rw [changeDate_abort now s (Or.inr h2)]
      exact ⟨rfl, rfl⟩
    · rw [changeDate_proceed now s (by simpa using h1) (by simpa using h2)]
      rw [change_startTime, change_stopTime, startAfter_custom now rfl, stopAfter_custom now rfl]
      exact ⟨rfl, rfl⟩

theorem changeTimeRange_eq (now : Int) (s : State) :
    changeTimeRange now s = change now
      { s with
        url := ((s.url.search "date" s.timeRange).search "stopTime" .null).search
          "startTime" .null } := rfl

theorem changeBounded_eq (now : Int) (s : State) :
    changeBounded now s = change now
      { s with
        strictly := !s.strictly
        url := s.url.search "strictly" (if s.strictly then .null else .str "true") } := by
  cases h : s.strictly <;> simp [changeBounded, State.search, h]

theorem secondsString_ne_undefined (v : JSVal) : secondsString v ≠ .undefined := by
  simp [secondsString]

theorem secondsString_ne_null (v : JSVal) : secondsString v ≠ .null := by
  simp [secondsString]

theorem search_same_str (p : Params) (key : String) (v : String) :
    (p.search key (.str v)) key = .str v := by
  simp [Params.search]

theorem search_same_null (p : Params) (key : String) : (p.search key .null) key = .undefined := by
  simp [Params.search]

/-- C11: from every state `changeTimeRange()` leaves `timeRange` under the `date` key of the
URL (the key is absent when `timeRange` is `null` or `undefined`, the two values that stand
for no value) and no `startTime` or `stopTime` key; from every state whose `startTime` and
`stopTime` are numbers (`isNaN` is false of them, as of every non-zero number) `changeDate()`
leaves no `date` key and both a `startTime` and a `stopTime` key. -/
theorem switch_encoding (s : State) (now : Int) :
    (changeTimeRange now s).url "date" =
      (if s.timeRange = .null then .undefined else s.timeRange) ∧
    ((changeTimeRange now s).url.has "date" ↔
      (s.timeRange ≠ .null ∧ s.timeRange ≠ .undefined)) ∧
    ¬ (changeTimeRange now s).url.has "startTime" ∧
    ¬ (changeTimeRange now s).url.has "stopTime" ∧
    (s.startTime.isNaN = false → s.stopTime.isNaN = false →
      ¬ (changeDate now s).url.has "date" ∧
      (changeDate now s).url.has "startTime" ∧
      (changeDate now s).url.has "stopTime") := by
  have hd : (changeTimeRange now s).url "date" =
      (if s.timeRange = .null then .undefined else s.timeRange) := by
    rw [changeTimeRange_eq, change_url]
    cases h : s.timeRange <;> simp [Params.search]
  refine ⟨hd, ?_, ?_, ?_, ?_⟩
  · unfold Params.has
    rw [hd]
    cases h : s.timeRange <;> simp
  · rw [changeTimeRange_eq, change_url]
    simp [Params.has, Params.search]
  · rw [changeTimeRange_eq, change_url]
    simp [Params.has, Params.search]
  · intro h1 h2
    rw [changeDate_proceed now s h1 h2, change_url]
    refine ⟨?_, ?_, ?_⟩
    · simp [Params.has, Params.search]
    · simp [Params.has, Params.search, secondsString]
    · simp [Params.has, Params.search, secondsString]

/-- C11 at the ready controller, for both switches. -/
theorem switch_encoding_witness :
    (changeTimeRange 1700000003000 threeHours).url "date" = .str "3" ∧
    ¬ (changeTimeRange 1700000003000 threeHours).url.has "startTime" ∧
    ¬ (changeDate 1700000003000 windowSet).url.has "date" ∧
    (changeDate 1700000003000 windowSet).url.has "startTime" ∧
    (changeDate 1700000003000 windowSet).url.has "stopTime" :=
  ⟨(switch_encoding threeHours 1700000003000).1,
    (switch_encoding threeHours 1700000003000).2.2.1,
    ((switch_encoding windowSet 1700000003000).2.2.2.2 rfl rfl).1,
    ((switch_encoding windowSet 1700000003000).2.2.2.2 rfl rfl).2.1,
    ((switch_encoding windowSet 1700000003000).2.2.2.2 rfl rfl).2.2⟩

theorem onInit_eq_change (now : Int) (s : State) :
    ∃ (tr st sp : JSVal) (u : Params),
      onInit now s = change now (initWith s tr st sp u) ∧
      (∀ k : String, k ≠ "date" → k ≠ "startTime" → k ≠ "stopTime" → u k = s.url k) := by
  by_cases hd : (s.routeParams "date").truthy = true
  · exact ⟨_, _, _, _, onInit_date now s hd, fun k _ h2 h3 => by simp [Params.search, h2, h3]⟩
  · have hd' : (s.routeParams "date").truthy = false := by simpa using hd
    by_cases h1 : (s.routeParams "startTime").truthy = true
    · by_cases h2 : (s.routeParams "stopTime").truthy = true
      · by_cases hp : paramsParse s
        · exact ⟨_, _, _, _, onInit_custom now s hd' h1 h2 hp, fun k _ _ _ => rfl⟩
        · exact ⟨_, _, _, _, onInit_unparsed now s hd' h1 h2 hp,
            fun k h1 h2 h3 => by simp [Params.search, h1, h2, h3]⟩
      · exact ⟨_, _, _, _, onInit_partial now s hd' (by simp [h1, h2]), fun k _ _ _ => rfl⟩
    · have h1' : (s.routeParams "startTime").truthy = false := by simpa using h1
      by_cases h2 : (s.routeParams "stopTime").truthy = true
      · exact ⟨_, _, _, _, onInit_partial now s hd' (by simp [h1', h2]), fun k _ _ _ => rfl⟩
      · have h2' : (s.routeParams "stopTime").truthy = false := by simpa using h2
        exact ⟨_, _, _, _, onInit_default now s hd' h1' h2',
          fun k h1 _ _ => by simp [Params.search, h1]⟩

theorem expressionInUrl_change (now : Int) (s : State) (h : ExpressionTyped (change now s)) :
    ExpressionInUrl (change now s) := by
  unfold ExpressionTyped at h
  unfold ExpressionInUrl
  rw [change_expression] at h
  rw [change_url, change_expression]
  rcases h with h | ⟨e, h⟩
  · simp [Params.has, Params.search, expressionParam, h, JSVal.truthy]
  · by_cases he : e = ""
    · simp [Params.has, Params.search, expressionParam, h, he, JSVal.truthy]
    · simp [Params.has, Params.search, expressionParam, h, he, JSVal.truthy]

/-- C12: after every call of `change()`, and so after `$onInit()`, `changeTimeRange()`,
`changeBounded()` and a `changeDate()` that passes its guard, the `expression` key of the URL is
present if and only if the expression value (a string or `null`) is neither `null` nor empty,
and then it equals that value; an expression value of `""` leaves the key absent. -/
theorem expression_key (s : State) (now : Int) :
    (ExpressionTyped (change now s) → ExpressionInUrl (change now s)) ∧
    (ExpressionTyped (onInit now s) → ExpressionInUrl (onInit now s)) ∧
    (ExpressionTyped (changeTimeRange now s) → ExpressionInUrl (changeTimeRange now s)) ∧
    (ExpressionTyped (changeBounded now s) → ExpressionInUrl (changeBounded now s)) ∧
    (s.startTime.isNaN = false → s.stopTime.isNaN = false →
      ExpressionTyped (changeDate now s) → ExpressionInUrl (changeDate now s)) ∧
    (s.expression = .str "" → ¬ (change now s).url.has "expression") := by
  refine ⟨expressionInUrl_change now s, ?_, ?_, ?_, ?_, ?_⟩
  · obtain ⟨tr, st, sp, u, e, _⟩ := onInit_eq_change now s
    rw [e]
    exact expressionInUrl_change now _
  · rw [changeTimeRange_eq]
    exact expressionInUrl_change now _
  · rw [changeBounded_eq]
    exact expressionInUrl_change now _
  · intro h1 h2
    rw [changeDate_proceed now s h1 h2]
    exact expressionInUrl_change now _
  · intro h
    rw [change_url]
    simp [Params.has, Params.search, expressionParam, h, JSVal.truthy]

/-- C12 at the ready controller, whose expression is `null`, and after the filter box is
emptied. -/
theorem expression_key_witness :
    ¬ (change 1700000003000 ready).url.has "expression" ∧
    ¬ (change 1700000003000 { ready with expression := .str "" }).url.has "expression" := by
  have h1 : ExpressionTyped (change 1700000003000 ready) := by
    unfold ExpressionTyped
    rw [change_expression, ready_expression]
    exact Or.inl rfl
  have h2 := ((expression_key ready 1700000003000).1 h1).1
  rw [change_expression, ready_expression] at h2
  refine ⟨fun h => (h2.mp h).1 rfl, ?_⟩
  exact (expression_key { ready with expression := .str "" } 1700000003000).2.2.2.2.2 rfl

/-! ## The flag `strictly` and its key along the interactions -/

theorem updateTime_eq (now : Int) (start stop : JSVal) (s : State) :
    updateTime now start stop s = changeDate now
      { s with
        startTime := if start.truthy then .num (paramMillis start) else s.startTime
        stopTime := if stop.truthy then .num (paramMillis stop) else s.stopTime } := by
  by_cases h1 : start.truthy = true <;> by_cases h2 : stop.truthy = true <;>
    simp [updateTime, paramMillis, h1, h2]

theorem change_strictly_key (now : Int) (s : State) :
    (change now s).url "strictly" = s.url "strictly" := by
  rw [change_url]
  exact search_other _ (by decide)

theorem changeDate_strictly (now : Int) (s : State) :
    (changeDate now s).strictly = s.strictly ∧
    (changeDate now s).url "strictly" = s.url "strictly" := by
  by_cases h1 : s.startTime.isNaN = true
  · rw [changeDate_abort now s (Or.inl h1)]
    exact ⟨rfl, rfl⟩
  · by_cases h2 : s.stopTime.isNaN = true
    · rw [changeDate_abort now s (Or.inr h2)]
      exact ⟨rfl, rfl⟩
    · rw [changeDate_proceed now s (by simpa using h1) (by simpa using h2)]
      refine ⟨by rw [change_strictly], ?_⟩
      rw [change_strictly_key]
      simp [Params.search]

theorem changeBounded_strictly (now : Int) (s : State) :
    (changeBounded now s).strictly = (!s.strictly) ∧
    (changeBounded now s).url "strictly" = (if s.strictly then .undefined else .str "true") := by
  rw [changeBounded_eq]
  refine ⟨by rw [change_strictly], ?_⟩
  rw [change_strictly_key]
  cases h : s.strictly <;> simp [Params.search]

/-- Every interaction but `changeBounded()` keeps the flag and its key; `changeBounded()`
flips the flag and sets the key to `true` or deletes it. -/
theorem step_strictly {s t : State} (h : Step s t) :
    (t.strictly = s.strictly ∧ t.url "strictly" = s.url "strictly") ∨
    (t.strictly = (!s.strictly) ∧
      t.url "strictly" = (if s.strictly then .undefined else .str "true")) := by
  cases h with
  | change now => exact Or.inl ⟨change_strictly now s, change_strictly_key now s⟩
  | changeTimeRange now =>
    left
    rw [changeTimeRange_eq]
    refine ⟨by rw [change_strictly], ?_⟩
    rw [change_strictly_key]
    simp [Params.search]
  | changeDate now => exact Or.inl (changeDate_strictly now s)
  | changeBounded now => exact Or.inr (changeBounded_strictly now s)
  | updateTime now start stop =>
    left
    rw [updateTime_eq]
    exact changeDate_strictly now _
  | closeFormContainer args =>
    left
    cases args with
    | none => exact ⟨rfl, rfl⟩
    | some m =>
      simp only [closeFormContainer]
      split_ifs <;> exact ⟨rfl, rfl⟩
  | clustersLoaded clusters => exact Or.inl ⟨rfl, rfl⟩
  | addTags => exact Or.inl ⟨rfl, rfl⟩
  | removeTags => exact Or.inl ⟨rfl, rfl⟩
  | exportPCAP => exact Or.inl ⟨rfl, rfl⟩
  | exportCSV => exact Or.inl ⟨rfl, rfl⟩
  | scrubPCAP => exact Or.inl ⟨rfl, rfl⟩
  | deleteSession => exact Or.inl ⟨rfl, rfl⟩
  | sendSession cluster => exact Or.inl ⟨rfl, rfl⟩
  | view w => cases w <;> exact Or.inl ⟨rfl, rfl⟩

theorem onInit_strictly (now : Int) (s : State) :
    (onInit now s).strictly = (s.routeParams "strictly").truthy ∧
    (onInit now s).url "strictly" = s.url "strictly" := by
  obtain ⟨tr, st, sp, u, e, hu⟩ := onInit_eq_change now s
  rw [e]
  refine ⟨by rw [change_strictly]; rfl, ?_⟩
  rw [change_strictly_key]
  exact hu "strictly" (by decide) (by decide) (by decide)

/-- The key is present exactly when the flag is set, in every reachable state, unless the
route came with a `strictly` parameter that is present and falsy. -/
theorem reachable_strictly_iff {loadTime : Int} {rp : Params} {s : State}
    (h : Reachable loadTime rp s)
    (hrp : rp "strictly" = .undefined ∨ (rp "strictly").truthy = true) :
    s.url.has "strictly" ↔ s.strictly = true := by
  induction h with
  | init now =>
    obtain ⟨h1, h2⟩ := onInit_strictly now (State.fresh loadTime rp)
    unfold Params.has
    rw [h1, h2]
    have hu : (State.fresh loadTime rp).url "strictly" = rp "strictly" := rfl
    have hr : (State.fresh loadTime rp).routeParams "strictly" = rp "strictly" := rfl
    rw [hu, hr]
    rcases hrp with hrp | hrp
    · rw [hrp]; simp [JSVal.truthy]
    · constructor
      · intro _; exact hrp
      · intro _ hund
        rw [hund] at hrp
        simp [JSVal.truthy] at hrp
  | step _ st ih =>
    rename_i a b
    unfold Params.has at ih ⊢
    rcases step_strictly st with ⟨h1, h2⟩ | ⟨h1, h2⟩
    · rw [h1, h2]; exact ih
    · rw [h1, h2]
      cases hb : a.strictly <;> simp

/-- The key, when present, holds the string `true`, in every reachable state, if the route
came without a `strictly` parameter or with the value `true`. -/
theorem reachable_strictly_value {loadTime : Int} {rp : Params} {s : State}
    (h : Reachable loadTime rp s)
    (hrp : rp "strictly" = .undefined ∨ rp "strictly" = .str "true") :
    s.url.has "strictly" → s.url "strictly" = .str "true" := by
  induction h with
  | init now =>
    obtain ⟨_, h2⟩ := onInit_strictly now (State.fresh loadTime rp)
    unfold Params.has
    rw [h2]
    have hu : (State.fresh loadTime rp).url "strictly" = rp "strictly" := rfl
    rw [hu]
    rcases hrp with hrp | hrp
    · rw [hrp]; simp
    · rw [hrp]; simp
  | step _ st ih =>
    rename_i a b
    unfold Params.has at ih ⊢
    rcases step_strictly st with ⟨_, h2⟩ | ⟨_, h2⟩
    · rw [h2]; exact ih
    · rw [h2]
      cases hb : a.strictly <;> simp

theorem changeBounded_twice_fields (now1 now2 : Int) (s : State) :
    (changeBounded now2 (changeBounded now1 s)).strictly = s.strictly ∧
    (changeBounded now2 (changeBounded now1 s)).url "strictly" =
      (if s.strictly then .str "true" else .undefined) := by
  obtain ⟨h1, _⟩ := changeBounded_strictly now1 s
  obtain ⟨h3, h4⟩ := changeBounded_strictly now2 (changeBounded now1 s)
  rw [h3, h4, h1]
  cases s.strictly <;> simp

theorem emptyFlag_fields :
    emptyFlag.strictly = false ∧ emptyFlag.url "strictly" = .str "" :=
  onInit_strictly 1700000000000 (State.fresh 1699999999000 strictlyEmpty)

theorem falseFlag_fields :
    falseFlag.strictly = true ∧ falseFlag.url "strictly" = .str "false" :=
  onInit_strictly 1700000000000 (State.fresh 1699999999000 strictlyFalse)

/-- C13, refuted: after `$onInit()` for the route `?strictly=` the flag is off and the key is
in the URL (with an empty value); two calls of `changeBounded()` leave the flag off, as it
was, but the key absent. -/
theorem changeBounded_twice_counterexample :
    Reachable 1699999999000 strictlyEmpty emptyFlag ∧
    emptyFlag.strictly = false ∧
    emptyFlag.url.has "strictly" ∧
    (changeBounded 1700000002000 (changeBounded 1700000001000 emptyFlag)).strictly = false ∧
    ¬ (changeBounded 1700000002000 (changeBounded 1700000001000 emptyFlag)).url.has
      "strictly" := by
  obtain ⟨h1, h2⟩ := emptyFlag_fields
  obtain ⟨h3, h4⟩ := changeBounded_twice_fields 1700000001000 1700000002000 emptyFlag
  refine ⟨Reachable.init 1700000000000, h1, ?_, ?_, ?_⟩
  · simp [Params.has, h2]
  · rw [h3, h1]
  · simp [Params.has, h4, h1]

/-- C13, amended: in every state reachable after initialization, for a route that came
without a `strictly` parameter or with a truthy (non-empty) one, two calls of
`changeBounded()` return `strictly` to its value and the `strictly` key of the URL to its
absence or presence. -/
theorem changeBounded_twice {loadTime : Int} {rp : Params} {s : State}
    (h : Reachable loadTime rp s)
    (hrp : rp "strictly" = .undefined ∨ (rp "strictly").truthy = true) (now1 now2 : Int) :
    (changeBounded now2 (changeBounded now1 s)).strictly = s.strictly ∧
    ((changeBounded now2 (changeBounded now1 s)).url.has "strictly" ↔
      s.url.has "strictly") := by
  obtain ⟨h1, h2⟩ := changeBounded_twice_fields now1 now2 s
  refine ⟨h1, ?_⟩
  rw [reachable_strictly_iff h hrp]
  unfold Params.has
  rw [h2]
  cases s.strictly <;> simp

/-- C13 amended, at the ready controller. -/
theorem changeBounded_twice_witness :
    Reachable 1699999999000 noParams ready ∧
    (changeBounded 1700000002000 (changeBounded 1700000001000 ready)).strictly
      = ready.strictly ∧
    ((changeBounded 1700000002000 (changeBounded 1700000001000 ready)).url.has "strictly" ↔
      ready.url.has "strictly") :=
  ⟨Reachable.init 1700000000000,
    changeBounded_twice (Reachable.init 1700000000000) (Or.inl rfl) 1700000001000
      1700000002000⟩

/-- C14, refuted: after `$onInit()` for the route `?strictly=false` the flag is on and the
key holds `false`, not `true`; after `$onInit()` for the route `?strictly=` the key is
present and the flag is off. -/
theorem strictly_key_counterexample :
    Reachable 1699999999000 strictlyFalse falseFlag ∧
    falseFlag.strictly = true ∧
    falseFlag.url "strictly" = .str "false" ∧
    falseFlag.url "strictly" ≠ .str "true" ∧
    Reachable 1699999999000 strictlyEmpty emptyFlag ∧
    emptyFlag.url.has "strictly" ∧
    emptyFlag.strictly = false := by
  obtain ⟨h1, h2⟩ := emptyFlag_fields
  obtain ⟨h3, h4⟩ := falseFlag_fields
  refine ⟨Reachable.init 1700000000000, h3, h4, ?_, Reachable.init 1700000000000, ?_, h1⟩
  · rw [h4]; decide
  · simp [Params.has, h2]

/-- C14, amended: the URL parameters starting equal to the route parameters, in every state
reachable from `$onInit()` the `strictly` key of the URL is present if and only if `strictly`
is true, provided the route came without a `strictly` parameter or with a truthy (non-empty)
one; and the key, whenever present, holds the string `true`, provided the route came without
the parameter or with the value `true`. -/
theorem strictly_key {loadTime : Int} {rp : Params} {s : State}
    (h : Reachable loadTime rp s) :
    ((rp "strictly" = .undefined ∨ (rp "strictly").truthy = true) →
      (s.url.has "strictly" ↔ s.strictly = true)) ∧
    ((rp "strictly" = .undefined ∨ rp "strictly" = .str "true") →
      s.url.has "strictly" → s.url "strictly" = .str "true") :=
  ⟨reachable_strictly_iff h, reachable_strictly_value h⟩

/-- C14 amended, at the ready controller after one call of `changeBounded()` and at the
controller initialised for the route `?strictly=true`. -/
theorem strictly_key_witness :
    Reachable 1699999999000 noParams (changeBounded 1700000001000 ready) ∧
    ((changeBounded 1700000001000 ready).url.has "strictly" ↔
      (changeBounded 1700000001000 ready).strictly = true) ∧
    ((onInit 1700000000000 (State.fresh 1699999999000 strictlyTrue)).url.has "strictly" →
      (onInit 1700000000000 (State.fresh 1699999999000 strictlyTrue)).url "strictly"
        = .str "true") :=
  ⟨Reachable.step (Reachable.init 1700000000000) (Step.changeBounded 1700000001000 ready),
    (strictly_key (Reachable.step (Reachable.init 1700000000000)
      (Step.changeBounded 1700000001000 ready))).1 (Or.inl rfl),
    (strictly_key
      (Reachable.init 1700000000000 : Reachable 1699999999000 strictlyTrue _)).2 (Or.inr rfl)⟩

/-! ## Whole seconds -/

theorem changeDate_custom_emitted (now : Int) (s : State)
    (h1 : s.startTime.isNaN = false) (h2 : s.stopTime.isNaN = false)
    (t1 : s.startTime.truthy = true) (t2 : s.stopTime.truthy = true) :
    (changeDate now s).emitted = s.emitted ++
      [.changeSearch
          { expression := s.expression, strictly := s.strictly, date := none,
            startTime := some (secondsString s.startTime),
            stopTime := some (secondsString s.stopTime) },
        .issueSearch s.expression] := by
  rw [changeDate_proceed now s h1 h2, change_emitted, startAfter_custom now rfl,
    stopAfter_custom now rfl, payloadAfter_custom now rfl]
  simp only [t1, t2, and_self, if_true]

theorem changeDate_url_window (now : Int) (s : State)
    (h1 : s.startTime.isNaN = false) (h2 : s.stopTime.isNaN = false) :
    (changeDate now s).url "date" = .undefined ∧
    (changeDate now s).url "startTime" = secondsString s.startTime ∧
    (changeDate now s).url "stopTime" = secondsString s.stopTime := by
  rw [changeDate_proceed now s h1 h2, change_url]
  refine ⟨?_, ?_, ?_⟩
  · simp [Params.search]
  · simp [Params.search, secondsString]
  · simp [Params.search, secondsString]

theorem onInit_emitted (now : Int) (s : State) :
    ∃ args : SearchArgs, args.expression = (onInit now s).expression ∧
      (onInit now s).emitted =
        (if (onInit now s).startTime.truthy ∧ (onInit now s).stopTime.truthy then
          s.emitted ++ [.changeSearch args, .issueSearch (onInit now s).expression]
        else s.emitted) := by
  obtain ⟨tr, st, sp, u, e, _⟩ := onInit_eq_change now s
  rw [e]
  refine ⟨payloadAfter now (initWith s tr st sp u), ?_, ?_⟩
  · rw [payloadAfter_expression, change_expression]
  · rw [change_emitted, change_startTime, change_stopTime, change_expression]
    rfl

theorem ready_startTime : ready.startTime = .num (.fin 1699996400000) := by
  rw [ready_eq, change_startTime, startAfter, isAllTime_of_one rfl, isRelative_of_one rfl]
  have h : (initWith (State.fresh 1699999999000 noParams) (.str "1") .undefined .undefined
      (noParams.search "date" (.str "1"))).timeRange = .str "1" := rfl
  simp only [h, toNumber_str_one, JSNum.mul, JSNum.sub, hourMS, Bool.false_eq_true, if_false,
    if_true]
  norm_num

theorem noWindow_window :
    noWindow.timeRange = .str "0" ∧ noWindow.startTime = .undefined ∧
    noWindow.stopTime = .undefined := by
  have ht : ((State.fresh 1699999999000 dateCustom).routeParams "date").truthy = true := by
    decide
  have e := onInit_date 1700000000000 (State.fresh 1699999999000 dateCustom) ht
  have hd : (State.fresh 1699999999000 dateCustom).routeParams "date" = .str "0" := rfl
  have hne : ¬ (JSVal.str "0" = JSVal.str "-1") := by decide
  simp only [hd, hne, if_false] at e
  unfold noWindow
  rw [e]
  refine ⟨by rw [change_timeRange]; rfl, ?_, ?_⟩
  · rw [change_startTime, startAfter_custom _ rfl]; rfl
  · rw [change_stopTime, stopAfter_custom _ rfl]; rfl

/-- C16, refuted: for the route `?date=0`, `$onInit()` sets the custom mode with no window
(`startTime` and `stopTime` stay `undefined`) and sends no notification at all. -/
theorem onInit_notifies_counterexample :
    noWindow.timeRange = .str "0" ∧ noWindow.startTime = .undefined ∧
    noWindow.stopTime = .undefined ∧ noWindow.emitted = [] := by
  obtain ⟨h1, h2, h3⟩ := noWindow_window
  refine ⟨h1, h2, h3, ?_⟩
  obtain ⟨args, _, he⟩ := onInit_emitted 1700000000000 (State.fresh 1699999999000 dateCustom)
  have h2' : (onInit 1700000000000 (State.fresh 1699999999000 dateCustom)).startTime
      = .undefined := h2
  rw [h2'] at he
  simpa [JSVal.truthy, State.fresh] using he

/-- C16, amended: for every set of incoming URL parameters, `$onInit()` fires the notifier at
most once: it sends exactly one `change:search` followed by one `issue:search`, both with the
expression it has set, when the `startTime` and `stopTime` it has resolved are both truthy,
and nothing when they are not. -/
theorem onInit_notifies (loadTime now : Int) (rp : Params) :
    ∃ args : SearchArgs,
      args.expression = (onInit now (State.fresh loadTime rp)).expression ∧
      (onInit now (State.fresh loadTime rp)).emitted =
        (if (onInit now (State.fresh loadTime rp)).startTime.truthy ∧
            (onInit now (State.fresh loadTime rp)).stopTime.truthy then
          [.changeSearch args, .issueSearch (onInit now (State.fresh loadTime rp)).expression]
        else []) := by
  obtain ⟨args, h1, h2⟩ := onInit_emitted now (State.fresh loadTime rp)
  refine ⟨args, h1, ?_⟩
  rw [h2]
  simp [State.fresh]

/-- C16 amended, at the route with no parameter, where the pair is sent. -/
theorem onInit_notifies_witness :
    ∃ args : SearchArgs, ready.emitted = [.changeSearch args, .issueSearch .null] := by
  obtain ⟨args, _, h2⟩ := onInit_notifies 1699999999000 1700000000000 noParams
  have h3 : (onInit 1700000000000 (State.fresh 1699999999000 noParams)) = ready := rfl
  rw [h3, ready_startTime, ready_stopTime, ready_expression] at h2
  refine ⟨args, ?_⟩
  rw [h2]
  simp [JSVal.truthy, JSNum.truthy]

/-! ## Custom windows, the action form and the all-time anchor -/

theorem truthy_num_fin {a : ℚ} (ha : a ≠ 0) : (JSVal.num (.fin a)).truthy = true := by
  simp [JSVal.truthy, JSNum.truthy, ha]

theorem changeDate_deltaTime (now : Int) (s : State)
    (h1 : s.startTime.isNaN = false) (h2 : s.stopTime.isNaN = false) :
    (changeDate now s).deltaTime =
      .num (JSNum.sub s.stopTime.toNumber s.startTime.toNumber) := by
  rw [changeDate_proceed now s h1 h2, change_deltaTime, startAfter_custom now rfl,
    stopAfter_custom now rfl]

theorem changeDate_timeRange (now : Int) (s : State) :
    (changeDate now s).timeRange = .str "0" := by
  by_cases h1 : s.startTime.isNaN = true
  · rw [changeDate_abort now s (Or.inl h1)]
  · by_cases h2 : s.stopTime.isNaN = true
    · rw [changeDate_abort now s (Or.inr h2)]
    · rw [changeDate_proceed now s (by simpa using h1) (by simpa using h2), change_timeRange]

/-- C17: for all non-zero numeric timestamps with `stopTime < startTime`, `changeDate()` goes
through: the mode becomes custom, `startTime` and `stopTime` are kept as given, the
`startTime` and `stopTime` keys of the URL are written, both notifications are sent, and
`deltaTime = stopTime - startTime` is negative. -/
theorem changeDate_reversed (a b : ℚ) (ha : a ≠ 0) (hb : b ≠ 0) (hlt : b < a) (s : State)
    (now : Int) (h1 : s.startTime = .num (.fin a)) (h2 : s.stopTime = .num (.fin b)) :
    (changeDate now s).timeRange = .str "0" ∧
    (changeDate now s).startTime = .num (.fin a) ∧
    (changeDate now s).stopTime = .num (.fin b) ∧
    (changeDate now s).url "startTime" = secondsString (.num (.fin a)) ∧
    (changeDate now s).url "stopTime" = secondsString (.num (.fin b)) ∧
    (changeDate now s).url.has "startTime" ∧
    (changeDate now s).url.has "stopTime" ∧
    (changeDate now s).emitted = s.emitted ++
      [.changeSearch
          { expression := s.expression, strictly := s.strictly, date := none,
            startTime := some (secondsString (.num (.fin a))),
            stopTime := some (secondsString (.num (.fin b))) },
        .issueSearch s.expression] ∧
    (changeDate now s).deltaTime = .num (.fin (b - a)) ∧
    b - a < 0 := by
  have n1 : s.startTime.isNaN = false := by rw [h1]; rfl
  have n2 : s.stopTime.isNaN = false := by rw [h2]; rfl
  obtain ⟨w1, w2⟩ := changeDate_window now s
  obtain ⟨_, u1, u2⟩ := changeDate_url_window now s n1 n2
  have e := changeDate_custom_emitted now s n1 n2 (by rw [h1]; exact truthy_num_fin ha)
    (by rw [h2]; exact truthy_num_fin hb)
  have d := changeDate_deltaTime now s n1 n2
  rw [h1] at w1 u1
  rw [h2] at w2 u2
  rw [h1, h2] at e d
  refine ⟨changeDate_timeRange now s, w1, w2, u1, u2, ?_, ?_, e, ?_, by linarith⟩
  · unfold Params.has
    rw [u1]
    exact secondsString_ne_undefined _
  · unfold Params.has
    rw [u2]
    exact secondsString_ne_undefined _
  · rw [d]
    rfl

/-- C17 at the window from 2000000 back to 1000000, whose `deltaTime` is -1000000. -/
theorem changeDate_reversed_witness :
    windowReversed.startTime = .num (.fin 2000000) ∧
    windowReversed.stopTime = .num (.fin 1000000) ∧
    (changeDate 1700000003000 windowReversed).timeRange = .str "0" ∧
    (changeDate 1700000003000 windowReversed).deltaTime = .num (.fin (-1000000)) := by
  have h := changeDate_reversed 2000000 1000000 (by norm_num) (by norm_num) (by norm_num)
    windowReversed 1700000003000 rfl rfl
  refine ⟨rfl, rfl, h.1, ?_⟩
  rw [h.2.2.2.2.2.2.2.2.1]
  norm_num

/-- C18: in the custom mode (`timeRange` the string `0`) `change()` does not resample: for
every state and every clock reading `startTime` and `stopTime` are after the call what they
were before it, and `deltaTime` is their difference; in every mode `deltaTime` is left equal
to `stopTime - startTime` of the resolved window. -/
theorem change_custom (s : State) (now : Int) (h : s.timeRange = .str "0") :
    (change now s).startTime = s.startTime ∧
    (change now s).stopTime = s.stopTime ∧
    (change now s).deltaTime = .num (JSNum.sub s.stopTime.toNumber s.startTime.toNumber) ∧
    (∀ (t : State) (now2 : Int), (change now2 t).deltaTime =
      .num (JSNum.sub (change now2 t).stopTime.toNumber (change now2 t).startTime.toNumber)) := by
  refine ⟨?_, ?_, ?_, ?_⟩
  · rw [change_startTime, startAfter_custom now h]
  · rw [change_stopTime, stopAfter_custom now h]
  · rw [change_deltaTime, startAfter_custom now h, stopAfter_custom now h]
  · intro t now2
    rw [change_deltaTime, change_startTime, change_stopTime]

/-- C18 at the custom window from 1000000 to 2000000. -/
theorem change_custom_witness :
    customWindow.timeRange = .str "0" ∧
    (change 1700000003000 customWindow).startTime = .num (.fin 1000000) ∧
    (change 1700000003000 customWindow).stopTime = .num (.fin 2000000) ∧
    (change 1700000003000 customWindow).deltaTime = .num (.fin 1000000) := by
  have h := change_custom customWindow 1700000003000 rfl
  refine ⟨rfl, h.1, h.2.1, ?_⟩
  rw [h.2.2.1]
  have h1 : customWindow.startTime = .num (.fin 1000000) := rfl
  have h2 : customWindow.stopTime = .num (.fin 2000000) := rfl
  rw [h1, h2]
  norm_num [JSVal.toNumber, JSNum.sub]

theorem sameSearch_closeFormContainer (args : Option JSVal) (s : State) :
    (closeFormContainer args s).actionForm = .bool false ∧
    SameSearch s (closeFormContainer args s) := by
  cases args with
  | none => exact ⟨rfl, rfl, rfl, rfl, rfl, rfl, rfl, rfl, rfl, rfl⟩
  | some m =>
    simp only [closeFormContainer]
    split_ifs <;> exact ⟨rfl, rfl, rfl, rfl, rfl, rfl, rfl, rfl, rfl, rfl⟩

/-- C19: from every state each of the seven action methods sets the selection `actionForm` to
its own target, whatever it was (`sendSession` also stores the cluster it is given), and
leaves the time, expression, `strictly` and URL state and the notifications as they were; the
listener of `close:form:container` resets the selection (to `false`) from every state, and
sets the message and the message kind `success` when the payload carries a (truthy) message,
and otherwise leaves both as they were. -/
theorem action_form (s : State) (cluster : Cluster) :
    ((addTags s).actionForm = .str "add:tags" ∧ SameSearch s (addTags s)) ∧
    ((removeTags s).actionForm = .str "remove:tags" ∧ SameSearch s (removeTags s)) ∧
    ((exportPCAP s).actionForm = .str "export:pcap" ∧ SameSearch s (exportPCAP s)) ∧
    ((exportCSV s).actionForm = .str "export:csv" ∧ SameSearch s (exportCSV s)) ∧
    ((scrubPCAP s).actionForm = .str "scrub:pcap" ∧ SameSearch s (scrubPCAP s)) ∧
    ((deleteSession s).actionForm = .str "delete:session" ∧ SameSearch s (deleteSession s)) ∧
    ((sendSession cluster s).actionForm = .str "send:session" ∧
      (sendSession cluster s).cluster = some cluster ∧ SameSearch s (sendSession cluster s)) ∧
    (∀ args : Option JSVal,
      (closeFormContainer args s).actionForm = .bool false ∧
      (closeFormContainer args s).actionForm.truthy = false ∧
      SameSearch s (closeFormContainer args s)) ∧
    (∀ m : JSVal, m.truthy = true →
      (closeFormContainer (some m) s).message = m ∧
      (closeFormContainer (some m) s).messageType = .str "success") ∧
    (∀ m : JSVal, m.truthy = false →
      (closeFormContainer (some m) s).message = s.message ∧
      (closeFormContainer (some m) s).messageType = s.messageType) ∧
    ((closeFormContainer none s).message = s.message ∧
      (closeFormContainer none s).messageType = s.messageType) := by
  have same : ∀ t : State, t.currentTime = s.currentTime → t.timeRange = s.timeRange →
      t.startTime = s.startTime → t.stopTime = s.stopTime → t.deltaTime = s.deltaTime →
      t.expression = s.expression → t.strictly = s.strictly → t.url = s.url →
      t.emitted = s.emitted → SameSearch s t :=
    fun t h1 h2 h3 h4 h5 h6 h7 h8 h9 => ⟨h1, h2, h3, h4, h5, h6, h7, h8, h9⟩
  refine ⟨⟨rfl, same _ rfl rfl rfl rfl rfl rfl rfl rfl rfl⟩,
    ⟨rfl, same _ rfl rfl rfl rfl rfl rfl rfl rfl rfl⟩,
    ⟨rfl, same _ rfl rfl rfl rfl rfl rfl rfl rfl rfl⟩,
    ⟨rfl, same _ rfl rfl rfl rfl rfl rfl rfl rfl rfl⟩,
    ⟨rfl, same _ rfl rfl rfl rfl rfl rfl rfl rfl rfl⟩,
    ⟨rfl, same _ rfl rfl rfl rfl rfl rfl rfl rfl rfl⟩,
    ⟨rfl, rfl, same _ rfl rfl rfl rfl rfl rfl rfl rfl rfl⟩, ?_, ?_, ?_, ⟨rfl, rfl⟩⟩
  · intro args
    obtain ⟨h1, h2⟩ := sameSearch_closeFormContainer args s
    exact ⟨h1, by rw [h1]; rfl, h2⟩
  · intro m hm
    simp [closeFormContainer, hm]
  · intro m hm
    simp [closeFormContainer, hm]

/-- C19 at the ready controller: a selection is replaced by the next one, and the form is
closed with a message. -/
theorem action_form_witness :
    (exportCSV (addTags ready)).actionForm = .str "export:csv" ∧
    (closeFormContainer (some (.str "done")) (addTags ready)).actionForm = .bool false ∧
    (closeFormContainer (some (.str "done")) (addTags ready)).message = .str "done" ∧
    (closeFormContainer (some (.str "done")) (addTags ready)).messageType = .str "success" :=
  ⟨(action_form (addTags ready) ⟨0⟩).2.2.2.1.1,
    ((action_form (addTags ready) ⟨0⟩).2.2.2.2.2.2.2.1 (some (.str "done"))).1,
    ((action_form (addTags ready) ⟨0⟩).2.2.2.2.2.2.2.2.1 (.str "done") (by decide)).1,
    ((action_form (addTags ready) ⟨0⟩).2.2.2.2.2.2.2.2.1 (.str "done") (by decide)).2⟩

theorem anchorAfter_allTime (now : Int) {s : State} (h : s.timeRange = .str "-1") :
    anchorAfter now s = s.currentTime := by
  simp [anchorAfter, isRelative_of_allTime h]

/-- C20: in the all-time mode (`timeRange` the string `-1`) `change()` does not sample the
clock: for every clock reading it leaves `startTime` at the constant 18000000 and `stopTime`
at the anchor `currentTime` as it was before the call, and the anchor itself as it was; so a
recompute at another clock reading, instead or afterwards, gives the same `startTime`,
`stopTime` and `deltaTime`.  The anchor is the load time of the module until a recompute in
a relative mode sets it to its clock reading. -/
theorem allTime_anchor (s : State) (h : s.timeRange = .str "-1") (now1 now2 : Int) :
    (change now1 s).startTime = .num (.fin 18000000) ∧
    (change now1 s).stopTime = .num (.fin s.currentTime) ∧
    (change now1 s).currentTime = s.currentTime ∧
    ((change now2 s).startTime = (change now1 s).startTime ∧
      (change now2 s).stopTime = (change now1 s).stopTime ∧
      (change now2 s).deltaTime = (change now1 s).deltaTime) ∧
    ((change now2 (change now1 s)).startTime = (change now1 s).startTime ∧
      (change now2 (change now1 s)).stopTime = (change now1 s).stopTime ∧
      (change now2 (change now1 s)).deltaTime = (change now1 s).deltaTime) ∧
    (∀ (loadTime : Int) (rp : Params), (State.fresh loadTime rp).currentTime = loadTime) ∧
    (∀ (t : State) (n : Nat) (now0 : Int), 0 < n →
      (t.timeRange = .str (decimal n) ∨ t.timeRange = .num (.fin n)) →
      (change now0 t).currentTime = now0) := by
  obtain ⟨a1, a2, _, a4⟩ := change_allTime_fields now1 s h
  obtain ⟨b1, b2, _, b4⟩ := change_allTime_fields now2 s h
  have hc : (change now1 s).currentTime = s.currentTime := by
    rw [change_currentTime, anchorAfter_allTime now1 h]
  have h' : (change now1 s).timeRange = .str "-1" := by rw [change_timeRange, h]
  obtain ⟨c1, c2, _, c4⟩ := change_allTime_fields now2 (change now1 s) h'
  refine ⟨?_, a2, hc, ⟨?_, ?_, ?_⟩, ⟨?_, ?_, ?_⟩, fun _ _ => rfl, ?_⟩
  · rw [a1]; norm_num
  · rw [a1, b1]
  · rw [a2, b2]
  · rw [a4, b4]
  · rw [c1, a1]
  · rw [c2, a2, hc]
  · rw [c4, a4, hc]
  · intro t n now0 hn ht
    rw [change_currentTime, anchorAfter, isRelative_of_relative hn ht]
    rfl

/-- C20 at the ready controller with the all-time mode selected, whose anchor 1700000000000
was sampled by the one-hour recompute of `$onInit()`. -/
theorem allTime_anchor_witness :
    everything.timeRange = .str "-1" ∧
    (change 1700000003000 everything).startTime = .num (.fin 18000000) ∧
    (change 1700000003000 everything).stopTime = .num (.fin 1700000000000) ∧
    (change 1700000009000 everything).stopTime = (change 1700000003000 everything).stopTime := by
  have h := allTime_anchor everything rfl 1700000003000 1700000009000
  have hc : everything.currentTime = 1700000000000 := ready_currentTime
  refine ⟨rfl, h.1, ?_, h.2.2.2.1.2.1⟩
  rw [h.2.1, hc]
  norm_num

end Search
